import Mathlib

/-!
Verification development for the Strayl MCP server
(`src/strayl_mcp_server/server.py`).

The server is a stateless shim: each tool validates its inputs, builds a JSON
payload, performs at most one HTTP POST against a fixed backend origin, and
turns the JSON response into a human-readable string.  We embed the tools as
total Lean functions.  Each tool takes

  * the value of the `STRAYL_API_KEY` environment variable (the empty string
    models an absent or empty variable, matching `os.getenv("STRAYL_API_KEY", "")`);
  * its own parameters, in source order;
  * where a time period may be parsed, the current instant `now` (integer
    seconds since the UTC epoch; all instants in the model are UTC);
  * the outcome of the (at most one) HTTP request, as an `HttpOutcome` value;

and returns the string handed back to the caller, paired with
`Option Request`: `some r` exactly when control reached the HTTP POST (the
request `r` records the URL and JSON body), `none` when a validation or
configuration error short-circuited before any network call.

Python exceptions are explicit: helper operations on dynamic JSON values
return `Except PyExn _`, and the single `try/except` block at the bottom of
every tool is the `handleExn` catch that converts each exception into a
string.  Note that `json.JSONDecodeError` is a subclass of `ValueError`, so a
200-response body that fails to parse is routed to the `except ValueError`
branch, exactly as in CPython.

Dynamic-typing corners that no claim depends on are modelled with documented
simplifications: iterating or slicing a non-list raises in the model (in
Python a string would be iterated character-wise), and exception message
texts for type errors are representative rather than byte-exact.
-/

/-- JSON values as produced by `response.json()`.  Numbers are rationals so
that both Python ints and floats (e.g. the fixed `similarity_threshold`
`0.22`) are represented exactly. -/
inductive Json where
  | null
  | bool (b : Bool)
  | num (q : Rat)
  | str (s : String)
  | arr (xs : List Json)
  | obj (fs : List (String × Json))

/-- Python truthiness (`if x:`) for JSON values: `None`, `False`, `0`, `""`,
`[]` and `{}` are falsy, everything else truthy. -/
def Json.truthy : Json → Bool
  | .null => false
  | .bool b => b
  | .num q => q != 0
  | .str s => s != ""
  | .arr xs => !xs.isEmpty
  | .obj fs => !fs.isEmpty

/-- First binding of `key` in an association list (Python dicts have unique
keys, so first = only). -/
def lookupField : List (String × Json) → String → Option Json
  | [], _ => none
  | (k, v) :: rest, key => if k = key then some v else lookupField rest key

/-- Key membership in a JSON object, modelling `key in dict`. -/
def hasField (fs : List (String × Json)) (key : String) : Bool :=
  (lookupField fs key).isSome

/-- Left-pad a string with zeros to length `k`. -/
def padZeros (s : String) (k : Nat) : String :=
  String.mk (List.replicate (k - s.length) '0') ++ s

/-- ASCII lower-casing of one character (the tokens and enums this server
lower-cases are ASCII; Python's full Unicode folding is not modelled). -/
def charLower (c : Char) : Char :=
  if 'A' ≤ c && c ≤ 'Z' then Char.ofNat (c.toNat + 32) else c

/-- ASCII upper-casing of one character. -/
def charUpper (c : Char) : Char :=
  if 'a' ≤ c && c ≤ 'z' then Char.ofNat (c.toNat - 32) else c

/-- Python `str.lower()` (ASCII). -/
def pyLower (s : String) : String := String.mk (s.data.map charLower)

/-- Python `str.upper()` (ASCII). -/
def pyUpperStr (s : String) : String := String.mk (s.data.map charUpper)

/-- Strip leading and trailing whitespace from a character list. -/
def pyStripChars (l : List Char) : List Char :=
  ((l.dropWhile Char.isWhitespace).reverse.dropWhile Char.isWhitespace).reverse

/-- Python `str.strip()`. -/
def pyStrip (s : String) : String := String.mk (pyStripChars s.data)

/-- The digits of a decimal numeral, or `none` if the list is empty or holds
a non-digit (the guts of `int(s)` / `str.isdigit` parsing of token counts). -/
def digitsToNat? (l : List Char) : Option Nat :=
  if l.isEmpty then none
  else if l.all Char.isDigit then
    some (l.foldl (fun a c => a * 10 + (c.toNat - 48)) 0)
  else none

/-- Substring occurrence on character lists (Python `pat in s`). -/
def containsSub : List Char → List Char → Bool
  | [], pat => pat.isEmpty
  | c :: rest, pat => pat.isPrefixOf (c :: rest) || containsSub rest pat

/-- Replace every occurrence of the character `c` by `r`
(Python `s.replace('Z', '+00:00')`). -/
def replaceChar (l : List Char) (c : Char) (r : List Char) : List Char :=
  match l with
  | [] => []
  | x :: xs => if x = c then r ++ replaceChar xs c r else x :: replaceChar xs c r

/-- Decimal rendering of a rational, matching Python `str()` on the ints and
terminating decimals that occur here: `str(11) = "11"`, `str(0.2) = "0.2"`,
`str(0.22) = "0.22"`.  `ratAbsParts` renders `|q|` as integer part and
optional fractional digits. -/
def ratAbsParts (q : Rat) : String × Option String :=
  if q.den = 1 then (toString q.num.natAbs, none)
  else
    match (List.range 40).find? (fun k => (10 ^ k) % q.den = 0) with
    | none => (toString q.num.natAbs ++ "/" ++ toString q.den, none)
    | some k =>
      let m : Nat := (10 ^ k) / q.den
      let a := q.num.natAbs * m
      (toString (a / 10 ^ k), some (padZeros (toString (a % 10 ^ k)) k))

/-- Python `str()` of an int or float represented as a rational. -/
def ratToDecimalStr (q : Rat) : String :=
  let sign := if q < 0 then "-" else ""
  match ratAbsParts q with
  | (i, none) => sign ++ i
  | (i, some f) => sign ++ i ++ "." ++ f

mutual

/-- Python `repr()` of a JSON value (strings quoted, containers bracketed). -/
def pyRepr : Json → String
  | .null => "None"
  | .bool true => "True"
  | .bool false => "False"
  | .num q => ratToDecimalStr q
  | .str s => "'" ++ s ++ "'"
  | .arr xs => "[" ++ pyReprList xs ++ "]"
  | .obj fs => "\x7b" ++ pyReprFields fs ++ "\x7d"

/-- Comma-separated `repr`s of list elements. -/
def pyReprList : List Json → String
  | [] => ""
  | [x] => pyRepr x
  | x :: y :: xs => pyRepr x ++ ", " ++ pyReprList (y :: xs)

/-- Comma-separated `repr`s of object fields. -/
def pyReprFields : List (String × Json) → String
  | [] => ""
  | [(k, v)] => "'" ++ k ++ "': " ++ pyRepr v
  | (k, v) :: y :: xs => "'" ++ k ++ "': " ++ pyRepr v ++ ", " ++ pyReprFields (y :: xs)

end

/-- Python `str()` of a JSON value: identical to `repr` except on strings,
which are rendered without quotes (this is what an f-string interpolation
does). -/
def pyStr : Json → String
  | .str s => s
  | v => pyRepr v

/-- Python `sep.join(list)`. -/
def pyJoin (sep : String) : List String → String
  | [] => ""
  | [x] => x
  | x :: y :: xs => x ++ sep ++ pyJoin sep (y :: xs)

/-- Whether `pat` occurs as a substring of `s`. -/
def strContains (s pat : String) : Bool :=
  containsSub s.data pat.data

/-- The Python exceptions the tools can see: `ValueError` (raised by
`get_api_key`, and by `response.json()` on a bad body since
`json.JSONDecodeError` subclasses `ValueError`), the transport timeout, and
any other exception with its message and formatted traceback. -/
inductive PyExn where
  | valueError (msg : String)
  | timeout
  | other (msg : String) (tb : String)

/-- The `except` clauses shared by every tool: `ValueError` becomes a
configuration error, `httpx.TimeoutException` the tool-specific timeout
message, and the generic `except Exception` branch an `"Error: …"` message,
with the traceback appended by the tools that import `traceback`. -/
def handleExn (timeoutMsg : String) (withTraceback : Bool) : PyExn → String
  | .valueError m => "Configuration error: " ++ m
  | .timeout => timeoutMsg
  | .other m tb =>
    if withTraceback then "Error: " ++ m ++ "\n\nTraceback:\n" ++ tb
    else "Error: " ++ m

/-- `d.get(key, dflt)`: defined on objects, raises `AttributeError` on any
other value (routed to the generic handler). -/
def pyGet (d : Json) (key : String) (dflt : Json) : Except PyExn Json :=
  match d with
  | .obj fs => .ok ((lookupField fs key).getD dflt)
  | _ => .error (.other "object has no attribute get" "")

/-- `"error" in data`: key test on objects, membership on lists, substring
test on strings; other values raise `TypeError`. -/
def pyInError (d : Json) : Except PyExn Bool :=
  match d with
  | .obj fs => .ok (hasField fs "error")
  | .arr xs => .ok (xs.any fun j => match j with | .str s => s == "error" | _ => false)
  | .str s => .ok (strContains s "error")
  | _ => .error (.other "argument of type is not iterable" "")

/-- Numeric coercion for arithmetic and comparisons (`total > 10`,
`x / 1000`): ints/floats are numbers, `bool` is an int subclass in Python;
anything else raises `TypeError`. -/
def pyAsRat (v : Json) : Except PyExn Rat :=
  match v with
  | .num q => .ok q
  | .bool b => .ok (if b then 1 else 0)
  | _ => .error (.other "unsupported operand type" "")

/-- List extraction for iteration and slicing.  Model simplification: a
non-list (including a string, which Python would iterate character-wise)
raises; all claims below concern list-valued fields. -/
def pyAsList (v : Json) : Except PyExn (List Json) :=
  match v with
  | .arr xs => .ok xs
  | _ => .error (.other "object is not a list" "")

/-- `.items()`: defined on objects only. -/
def pyAsObj (v : Json) : Except PyExn (List (String × Json)) :=
  match v with
  | .obj fs => .ok fs
  | _ => .error (.other "object has no attribute items" "")

/-- `.upper()`: defined on strings only. -/
def pyUpper (v : Json) : Except PyExn String :=
  match v with
  | .str s => .ok (pyUpperStr s)
  | _ => .error (.other "object has no attribute upper" "")

/-- Insert thousands separators into a (reversed) digit list. -/
def commaGroupAux : List Char → List Char
  | a :: b :: c :: d :: rest => a :: b :: c :: ',' :: commaGroupAux (d :: rest)
  | l => l

/-- Insert thousands separators into a digit string. -/
def commaGroup (s : String) : String :=
  String.mk (commaGroupAux s.data.reverse).reverse

/-- f-string `{x:,}`: thousands-separated number.  A string raises
`ValueError` ("Cannot specify ',' with 's'"), other non-numbers raise
`TypeError`. -/
def pyFormatComma (v : Json) : Except PyExn String :=
  match v with
  | .num q =>
    let sign := if q < 0 then "-" else ""
    match ratAbsParts q with
    | (i, none) => .ok (sign ++ commaGroup i)
    | (i, some f) => .ok (sign ++ commaGroup i ++ "." ++ f)
  | .bool b => .ok (if b then "1" else "0")
  | .str _ => .error (.valueError "Cannot specify a comma with a string")
  | _ => .error (.other "unsupported format string" "")

/-- f-string `{x / 1000:.2f}`: divide by 1000 and render with two decimals
(rounding half away from zero; Python uses the float's binary rounding, which
agrees on the values that occur here). -/
def pyDiv1000Fmt2 (v : Json) : Except PyExn String :=
  match pyAsRat v with
  | .error e => .error e
  | .ok q =>
    let r := q / 1000
    let a : Int := if r < 0 then -(Rat.floor (-r * 100 + 1 / 2)) else Rat.floor (r * 100 + 1 / 2)
    let sign := if a < 0 then "-" else ""
    sign ++ toString (a.natAbs / 100) ++ "." ++ padZeros (toString (a.natAbs % 100)) 2 |> .ok

/-- Truthiness of an optional-string tool parameter (`if level:`). -/
def optTruthy : Option String → Bool
  | none => false
  | some s => s != ""

/-- f-string rendering of an optional string (`str(None) = "None"`). -/
def optStr : Option String → String
  | none => "None"
  | some s => s

/-- The optional parameter as Python's truthiness sees it: `some s` when the
value is present and non-empty, else `none`. -/
def activeOpt (o : Option String) : Option String :=
  if optTruthy o then o else none

/-- `"-" * 80`. -/
def dash80 : String := String.mk (List.replicate 80 '-')

/-- `"=" * 80`. -/
def eq80 : String := String.mk (List.replicate 80 '=')

/-- Numeric-prefixed token: `t` ends with `suffix` and the rest is a positive
decimal number. -/
def numToken (t suffix : String) : Option Nat :=
  if suffix.data.isSuffixOf t.data then
    match digitsToNat? (t.data.take (t.data.length - suffix.data.length)) with
    | some n => if 0 < n then some n else none
    | none => none
  else none

/-- The `last_{N}_days` token shape. -/
def lastDaysToken (t : String) : Option Nat :=
  if "last_".data.isPrefixOf t.data && "_days".data.isSuffixOf t.data then
    match digitsToNat? ((t.data.drop 5).take (t.data.length - 10)) with
    | some n => if 0 < n then some n else none
    | none => none
  else none

/-- Modelled from the spec: the minute-rule alternatives (`{N}_minutes`,
`{N}_mins`, `{N}m`) of the resolver, tried in order. -/
def minutesToken (t : String) : Option Nat :=
  match numToken t "_minutes" with
  | some n => some n
  | none =>
    match numToken t "_mins" with
    | some n => some n
    | none => numToken t "m"

/-- The hour-rule alternatives of the spec-modelled resolver. -/
def hoursToken (t : String) : Option Nat :=
  match numToken t "_hours" with
  | some n => some n
  | none =>
    match numToken t "_hour" with
    | some n => some n
    | none => numToken t "h"

/-- The day-rule alternatives of the spec-modelled resolver. -/
def daysToken (t : String) : Option Nat :=
  match lastDaysToken t with
  | some n => some n
  | none => numToken t "d"

/-- The spec's token normalization: lower-case, then strip whitespace. -/
def normToken (token : String) : String := pyStrip (pyLower token)

/-- The rule table of the spec-modelled resolver, over a normalized token. -/
def resolveNormToken (now : Int) (t : String) : Option (Int × Int) :=
  if t = "today" then some (now - now % 86400, now)
  else if t = "yesterday" then some (now - now % 86400 - 86400, now - now % 86400)
  else
    match minutesToken t with
    | some n => some (now - 60 * (n : Int), now)
    | none =>
      match hoursToken t with
      | some n => some (now - 3600 * (n : Int), now)
      | none =>
        match daysToken t with
        | some n => some (now - 86400 * (n : Int), now)
        | none => none

/-- Modelled from the spec: the time-period resolver `parse_time_period` lives
in the repository module `strayl_mcp_server.utils`, which is not among the
provided sources (`server.py` only imports it); this definition follows spec
section 4.1 literally.  Instants are integer seconds since the UTC epoch (so
every instant is a UTC instant by construction and a UTC day is 86400
seconds); the current instant `now` is sampled once per resolution and passed
explicitly.  The token is lower-cased and stripped, then matched against
`{N}m` / `{N}_minutes` / `{N}_mins`, `{N}h` / `{N}_hour` / `{N}_hours`,
`today`, `yesterday`, `{N}d` / `last_{N}_days`; anything else is the explicit
failure outcome `none` (never an uncaught fault: the function is total). -/
def parse_time_period (now : Int) (token : String) : Option (Int × Int) :=
  resolveNormToken now (normToken token)

/-- Modelled from the spec: `format_log_result` from `strayl_mcp_server.utils`
(absent from the provided sources).  Spec 4.2 only requires a bounded
human-readable rendering of one opaque log record that substitutes
placeholders for missing fields and never fails; the concrete layout is
unspecified and no claim below depends on it. -/
def format_log_result (log : Json) : String :=
  let fld := fun (k dflt : String) =>
    match log with
    | .obj fs =>
      match lookupField fs k with
      | some v => pyStr v
      | none => dflt
    | _ => dflt
  "[" ++ fld "timestamp" "Unknown" ++ "] [" ++ fld "level" "Unknown" ++ "] "
    ++ fld "message" "" ++ " (source: " ++ fld "source" "Unknown" ++ ")"

/-- Proleptic-Gregorian civil date from days since 1970-01-01 (Howard
Hinnant's algorithm, phrased with floor division). -/
def civilFromDays (z0 : Int) : Int × Int × Int :=
  let z := z0 + 719468
  let era : Int := z / 146097
  let doe : Int := z % 146097
  let yoe : Int := (doe - doe / 1460 + doe / 36524 - doe / 146096) / 365
  let y : Int := yoe + era * 400
  let doy : Int := doe - (365 * yoe + yoe / 4 - yoe / 100)
  let mp : Int := (5 * doy + 2) / 153
  let d : Int := doy - (153 * mp + 2) / 5 + 1
  let m : Int := if mp < 10 then mp + 3 else mp - 9
  (if m ≤ 2 then y + 1 else y, m, d)

/-- Two-digit zero-padded field. -/
def pad2i (n : Int) : String := padZeros (toString n.natAbs) 2

/-- Four-digit zero-padded year. -/
def pad4i (n : Int) : String :=
  if n < 0 then "-" ++ padZeros (toString n.natAbs) 4 else padZeros (toString n.natAbs) 4

/-- `datetime.isoformat()` of a UTC instant of the model (second resolution),
e.g. `"2024-01-01T11:00:00+00:00"`. -/
def isoformat (t : Int) : String :=
  let days := t / 86400
  let secs := t % 86400
  let c := civilFromDays days
  pad4i c.1 ++ "-" ++ pad2i c.2.1 ++ "-" ++ pad2i c.2.2 ++ "T"
    ++ pad2i (secs / 3600) ++ ":" ++ pad2i ((secs % 3600) / 60) ++ ":" ++ pad2i (secs % 60)
    ++ "+00:00"

/-- Simplified model of `datetime.fromisoformat` followed by `strftime`:
accepts strings shaped `YYYY-MM-DDTHH:MM:SS…` (a space also accepted in place
of `T`) and returns the canonical display `"YYYY-MM-DD HH:MM:SS"`; anything
else is a parse failure (the `except` branch).  Real `fromisoformat` accepts
a few more shapes; no claim depends on this helper. -/
def isoDisplay (s : String) : Option String :=
  let cs := s.data
  if cs.length < 19 then none
  else
    let d := fun (i : Nat) => cs.getD i ' '
    if ([0, 1, 2, 3, 5, 6, 8, 9, 11, 12, 14, 15, 17, 18].all fun i => (d i).isDigit)
        && d 4 = '-' && d 7 = '-' && (d 10 = 'T' || d 10 = ' ') && d 13 = ':' && d 16 = ':' then
      some (String.mk (cs.take 10) ++ " " ++ String.mk ((cs.drop 11).take 8))
    else none

/-- The `try: … strftime … except: raw[:fallbackLen]` date blocks: a falsy
value renders as `""`; a truthy string is parsed (with `Z` replaced by
`+00:00`) and displayed to `fmtLen` characters, falling back to a prefix of
the raw string; a truthy non-string raises (its `.replace` fails inside the
`try` and the bare `except` handler's slicing fails again). -/
def pyDateStr (v : Json) (fmtLen fallbackLen : Nat) : Except PyExn String :=
  if !v.truthy then .ok ""
  else
    match v with
    | .str s =>
      match isoDisplay (String.mk (replaceChar s.data 'Z' "+00:00".data)) with
      | some d => .ok (String.mk (d.data.take fmtLen))
      | none => .ok (String.mk (s.data.take fallbackLen))
    | _ => .error (.other "object is not subscriptable" "")

/-- The hardcoded backend origin (`STRAYL_API_URL`). -/
def STRAYL_API_URL : String := "https://ougtygyvcgdnytkswier.supabase.co/functions/v1"

/-- The message of the `ValueError` raised by `get_api_key` when
`STRAYL_API_KEY` is unset or empty. -/
def api_key_required_msg : String :=
  "STRAYL_API_KEY environment variable is required. Get your API key from https://strayl.dev"

/-- What the caller sees for a missing credential: the `ValueError` caught by
`except ValueError` and prefixed `Configuration error: `. -/
def configuration_error_msg : String := "Configuration error: " ++ api_key_required_msg

/-- One outbound HTTP POST: the URL and the JSON body (`none` when the tool
posts without a body). -/
structure Request where
  url : String
  body : Option Json

/-- The backend/transport outcome of the one HTTP request: a timeout, some
other transport exception (message and traceback), or a response with status
code, `content-type` header, the result of `response.json()` (`Except`
because the body may fail to parse) and the raw `response.text`. -/
inductive HttpOutcome where
  | timeout
  | exnOut (msg : String) (tb : String)
  | resp (status : Int) (contentType : String) (jsonBody : Except String Json) (text : String)

/-- `response.json()`: a parse failure raises `json.JSONDecodeError`, a
`ValueError` subclass. -/
def responseJson (jsonBody : Except String Json) : Except PyExn Json :=
  match jsonBody with
  | .ok j => .ok j
  | .error m => .error (.valueError m)

/-- The non-200 branch shared by every tool:
`error_data = response.json() if content-type == "application/json" else {}`
then `f"Error: API returned status {code}: {error_data.get('error', response.text)}"`. -/
def apiStatusMessage (status : Int) (contentType : String)
    (jsonBody : Except String Json) (text : String) : Except PyExn String :=
  match (if contentType = "application/json" then responseJson jsonBody
         else .ok (Json.obj [])) with
  | .error err => .error err
  | .ok errData =>
    match pyGet errData "error" (.str text) with
    | .error err => .error err
    | .ok e => .ok ("Error: API returned status " ++ toString status ++ ": " ++ pyStr e)

/-- Issue the request and classify the outcome: the `process` argument is the
tool's response handling (the body of the `with` block after `client.post`),
and every exception is converted by the tool's `except` clauses.  The request
is recorded in all cases — control reached the POST. -/
def runRequest (timeoutMsg : String) (withTraceback : Bool) (req : Request)
    (out : HttpOutcome)
    (process : Int → String → Except String Json → String → Except PyExn String) :
    String × Option Request :=
  match out with
  | .timeout => (timeoutMsg, some req)
  | .exnOut m tb => (handleExn timeoutMsg withTraceback (.other m tb), some req)
  | .resp status ct body text =>
    match process status ct body text with
    | .ok s => (s, some req)
    | .error e => (handleExn timeoutMsg withTraceback e, some req)

/-- The `search_logs_semantic` request payload: `query`, `match_threshold`,
`match_count`, plus `start_time`/`end_time` when a time period was resolved. -/
def search_logs_semantic_payload (query : String) (match_threshold : Rat)
    (match_count : Int) (times : Option (Int × Int)) : Json :=
  .obj ([("query", .str query), ("match_threshold", .num match_threshold),
         ("match_count", .num match_count)]
    ++ (match times with
        | some (st, en) => [("start_time", .str (isoformat st)), ("end_time", .str (isoformat en))]
        | none => []))

/-- The numbered entries of the log-search output: for each record one line
`"{i}. {format_log_result(log)}"` followed by a dashed rule.  Applied to
`results[:10]`. -/
def logEntriesFrom (i : Nat) : List Json → List String
  | [] => []
  | l :: ls => (toString i ++ ". " ++ format_log_result l) :: dash80 :: logEntriesFrom (i + 1) ls

/-- `search_logs_semantic`'s handling of the HTTP response (the body of its
`with` block after `client.post`); exception propagation is written out as
explicit matches. -/
def search_logs_semantic_process (query : String) (tp : Option String)
    (match_threshold : Rat) (status : Int) (contentType : String)
    (jsonBody : Except String Json) (text : String) : Except PyExn String :=
  if status ≠ 200 then
    apiStatusMessage status contentType jsonBody text
  else
    match responseJson jsonBody with
    | .error err => .error err
    | .ok data =>
      match pyGet data "success" .null with
      | .error err => .error err
      | .ok success =>
        if !success.truthy then
          match pyGet data "error" (.str "Unknown error") with
          | .error err => .error err
          | .ok e => .ok ("Error: " ++ pyStr e)
        else
          match pyGet data "results" (.arr []) with
          | .error err => .error err
          | .ok resultsJ =>
            match pyGet data "total_results" (.num 0) with
            | .error err => .error err
            | .ok total =>
              match pyGet data "search_metadata" (.obj []) with
              | .error err => .error err
              | .ok metadata =>
                if !resultsJ.truthy then
                  let timeInfo := match tp with
                    | some t => " in period '" ++ t ++ "'"
                    | none => ""
                  .ok ("No logs found for query '" ++ query ++ "'" ++ timeInfo)
                else
                  match pyGet metadata "logs_with_embeddings" (.num 0) with
                  | .error err => .error err
                  | .ok lwe =>
                    match pyAsList resultsJ with
                    | .error err => .error err
                    | .ok results =>
                      match pyAsRat total with
                      | .error err => .error err
                      | .ok totalR =>
                        let header := ["Semantic Search Results for: '" ++ query ++ "'",
                            "Total results: " ++ pyStr total]
                          ++ (match tp with
                              | some t => ["Time period: " ++ t]
                              | none => [])
                          ++ ["Similarity threshold: " ++ ratToDecimalStr match_threshold,
                              "Logs with embeddings: " ++ pyStr lwe,
                              "\n" ++ eq80 ++ "\n"]
                        let entries := logEntriesFrom 1 (results.take 10)
                        let tail := if 10 < totalR then
                            ["\n... and " ++ ratToDecimalStr (totalR - 10) ++ " more results"]
                          else []
                        .ok (pyJoin "\n" (header ++ entries ++ tail))

/-- `search_logs_semantic` after input validation: build the payload, POST to
`/search-logs`, handle the outcome.  `tp` is the truthy time-period input and
`times` its resolution. -/
def search_logs_semantic_run (query : String) (tp : Option String)
    (match_threshold : Rat) (match_count : Int) (times : Option (Int × Int))
    (out : HttpOutcome) : String × Option Request :=
  runRequest "Error: Request timed out. Please try again." false
    ⟨STRAYL_API_URL ++ "/search-logs",
     some (search_logs_semantic_payload query match_threshold match_count times)⟩
    out (search_logs_semantic_process query tp match_threshold)

/-- The tool `search_logs_semantic(query, time_period=None,
match_threshold=0.2, match_count=50)`: check the credential, resolve the
time-period token if one was (truthily) supplied — an unrecognized token
short-circuits with a descriptive error and no request — then perform the
search. -/
def search_logs_semantic (api_key query : String) (time_period : Option String)
    (match_threshold : Rat) (match_count : Int) (now : Int) (out : HttpOutcome) :
    String × Option Request :=
  if api_key = "" then (configuration_error_msg, none)
  else
    match activeOpt time_period with
    | some t =>
      match parse_time_period now t with
      | none =>
        ("Error: Invalid time period '" ++ t
          ++ "'. Supported values: 5m, 1h, today, yesterday, 7d, etc.", none)
      | some times =>
        search_logs_semantic_run query (some t) match_threshold match_count (some times) out
    | none => search_logs_semantic_run query none match_threshold match_count none out

/-- The `search_logs_exact` request payload: `query`, `case_sensitive`,
`limit`, plus the lower-cased `level` and `start_time`/`end_time` when
supplied. -/
def search_logs_exact_payload (query : String) (case_sensitive : Bool) (limit : Int)
    (level : Option String) (times : Option (Int × Int)) : Json :=
  .obj ([("query", .str query), ("case_sensitive", .bool case_sensitive),
         ("limit", .num limit)]
    ++ (match level with
        | some l => [("level", .str (pyLower l))]
        | none => [])
    ++ (match times with
        | some (st, en) => [("start_time", .str (isoformat st)), ("end_time", .str (isoformat en))]
        | none => []))

/-- `search_logs_exact`'s handling of the HTTP response. -/
def search_logs_exact_process (query : String) (tp lvl : Option String)
    (case_sensitive : Bool) (status : Int) (contentType : String)
    (jsonBody : Except String Json) (text : String) : Except PyExn String :=
  if status ≠ 200 then
    apiStatusMessage status contentType jsonBody text
  else
    match responseJson jsonBody with
    | .error err => .error err
    | .ok data =>
      match pyGet data "success" .null with
      | .error err => .error err
      | .ok success =>
        if !success.truthy then
          match pyGet data "error" (.str "Unknown error") with
          | .error err => .error err
          | .ok e => .ok ("Error: " ++ pyStr e)
        else
          match pyGet data "results" (.arr []) with
          | .error err => .error err
          | .ok resultsJ =>
            match pyGet data "total_results" (.num 0) with
            | .error err => .error err
            | .ok total =>
              if !resultsJ.truthy then
                let filters := (match tp with
                    | some t => ["period '" ++ t ++ "'"]
                    | none => [])
                  ++ (match lvl with
                      | some l => ["level '" ++ l ++ "'"]
                      | none => [])
                let filterStr := if filters.isEmpty then ""
                  else " with filters: " ++ pyJoin ", " filters
                .ok ("No logs found for exact text '" ++ query ++ "'" ++ filterStr)
              else
                match pyAsList resultsJ with
                | .error err => .error err
                | .ok results =>
                  match pyAsRat total with
                  | .error err => .error err
                  | .ok totalR =>
                    let header := ["Exact Search Results for: '" ++ query ++ "'",
                        "Total results: " ++ pyStr total]
                      ++ (match tp with
                          | some t => ["Time period: " ++ t]
                          | none => [])
                      ++ (match lvl with
                          | some l => ["Log level: " ++ l]
                          | none => [])
                      ++ ["Case sensitive: " ++ (if case_sensitive then "True" else "False"),
                          "\n" ++ eq80 ++ "\n"]
                    let entries := logEntriesFrom 1 (results.take 10)
                    let tail := if 10 < totalR then
                        ["\n... and " ++ ratToDecimalStr (totalR - 10) ++ " more results"]
                      else []
                    .ok (pyJoin "\n" (header ++ entries ++ tail))

/-- `search_logs_exact` after input validation: POST to `/exact-search-logs`
and handle the outcome.  `lvl` is the truthy level input in its original case
(the payload lower-cases it, the headers and filters print it as-is). -/
def search_logs_exact_run (query : String) (tp lvl : Option String)
    (case_sensitive : Bool) (limit : Int) (times : Option (Int × Int))
    (out : HttpOutcome) : String × Option Request :=
  runRequest "Error: Request timed out. Please try again." false
    ⟨STRAYL_API_URL ++ "/exact-search-logs",
     some (search_logs_exact_payload query case_sensitive limit lvl times)⟩
    out (search_logs_exact_process query tp lvl case_sensitive)

/-- The level-validation step of `search_logs_exact`, reached after the time
period resolved: a truthily-supplied level outside
`{info, warn, error, debug}` (case-insensitively) short-circuits with a
validation error and no request. -/
def search_logs_exact_checkLevel (query : String) (tp : Option String)
    (level : Option String) (case_sensitive : Bool) (limit : Int)
    (times : Option (Int × Int)) (out : HttpOutcome) : String × Option Request :=
  match activeOpt level with
  | some l =>
    if ["info", "warn", "error", "debug"].contains (pyLower l) then
      search_logs_exact_run query tp (some l) case_sensitive limit times out
    else
      ("Error: Invalid log level '" ++ l ++ "'. Must be one of: info, warn, error, debug", none)
  | none => search_logs_exact_run query tp none case_sensitive limit times out

/-- The tool `search_logs_exact(query, time_period=None, level=None,
case_sensitive=False, limit=50)`: credential check, time-period resolution,
level validation, then the search. -/
def search_logs_exact (api_key query : String) (time_period level : Option String)
    (case_sensitive : Bool) (limit : Int) (now : Int) (out : HttpOutcome) :
    String × Option Request :=
  if api_key = "" then (configuration_error_msg, none)
  else
    match activeOpt time_period with
    | some t =>
      match parse_time_period now t with
      | none => ("Error: Invalid time period '" ++ t ++ "'", none)
      | some times =>
        search_logs_exact_checkLevel query (some t) level case_sensitive limit (some times) out
    | none => search_logs_exact_checkLevel query none level case_sensitive limit none out

/-- The `search_documentation` request payload.  `limit = 15` and
`similarity_threshold = 0.22` are hardcoded (the source comment notes the
limit is fixed and not supplied by the user); `chat_id` / `source_id` are
added only when truthily supplied. -/
def search_documentation_payload (query : String) (chat_id source_id : Option String)
    (use_ai : Bool) : Json :=
  .obj ([("query", .str query), ("limit", .num 15),
         ("similarity_threshold", .num (22 / 100)), ("use_ai", .bool use_ai)]
    ++ (match activeOpt chat_id with
        | some c => [("chat_id", .str c)]
        | none => [])
    ++ (match activeOpt source_id with
        | some s => [("source_id", .str s)]
        | none => []))

/-- The fallback (no AI answer) rendering of documentation results: per
record the source name in bold and the first 300 characters of the content. -/
def docEntriesFrom (i : Nat) : List Json → Except PyExn (List String)
  | [] => .ok []
  | r :: rs =>
    match pyGet r "source" (.obj []) with
    | .error err => .error err
    | .ok source =>
      match pyGet r "content" (.str "") with
      | .error err => .error err
      | .ok contentJ =>
        match contentJ with
        | .str c =>
          match pyGet source "name" (.str "Unknown") with
          | .error err => .error err
          | .ok nameJ =>
            match docEntriesFrom (i + 1) rs with
            | .error err => .error err
            | .ok rest =>
              .ok ((toString i ++ ". **" ++ pyStr nameJ ++ "**")
                :: ("   " ++ String.mk (c.data.take 300) ++ "...\n") :: rest)
        | _ => .error (.other "object is not subscriptable" "")

/-- `search_documentation`'s handling of the HTTP response: a body with an
`error` key is a domain error; no results and no structured answer is the
no-results message; a non-blank structured answer is returned alone, stripped,
with no headers or metadata (so the source comments say); otherwise the brief
per-record fallback listing. -/
def search_documentation_process (query : String) (source_id : Option String)
    (status : Int) (contentType : String) (jsonBody : Except String Json)
    (text : String) : Except PyExn String :=
  if status ≠ 200 then
    apiStatusMessage status contentType jsonBody text
  else
    match responseJson jsonBody with
    | .error err => .error err
    | .ok data =>
      match pyInError data with
      | .error err => .error err
      | .ok hasErr =>
        if hasErr then
          match pyGet data "error" (.str "Unknown error") with
          | .error err => .error err
          | .ok e => .ok ("Error: " ++ pyStr e)
        else
          match pyGet data "results" (.arr []) with
          | .error err => .error err
          | .ok resultsJ =>
            match pyGet data "structured_answer" .null with
            | .error err => .error err
            | .ok sa =>
              if !resultsJ.truthy && !sa.truthy then
                let srcInfo := match activeOpt source_id with
                  | some s => " in source '" ++ s ++ "'"
                  | none => ""
                .ok ("No documentation found for query '" ++ query ++ "'" ++ srcInfo)
              else if sa.truthy && pyStrip (pyStr sa) ≠ "" then
                .ok (pyStrip (pyStr sa))
              else
                match pyAsList resultsJ with
                | .error err => .error err
                | .ok results =>
                  match docEntriesFrom 1 results with
                  | .error err => .error err
                  | .ok entries =>
                    .ok (pyJoin "\n"
                      (("📚 " ++ toString results.length ++ " результат(ов) по запросу: "
                          ++ query ++ "\n") :: entries))

/-- The tool `search_documentation(query, chat_id=None, source_id=None,
use_ai=True)`: credential check, then POST to `/search-documentation` with a
60-second budget. -/
def search_documentation (api_key query : String) (chat_id source_id : Option String)
    (use_ai : Bool) (out : HttpOutcome) : String × Option Request :=
  if api_key = "" then (configuration_error_msg, none)
  else
    runRequest
      "Error: Request timed out (Gemini processing can take up to 60s). Please try again."
      true
      ⟨STRAYL_API_URL ++ "/search-documentation",
       some (search_documentation_payload query chat_id source_id use_ai)⟩
      out (search_documentation_process query source_id)

/-- One formatted documentation source of `list_documentation_sources`. -/
def sourceEntry (i : Nat) (source : Json) : Except PyExn (List String) :=
  match pyGet source "id" (.str "Unknown") with
  | .error err => .error err
  | .ok sid =>
    match pyGet source "name" (.str "Unnamed") with
    | .error err => .error err
    | .ok name =>
      match pyGet source "url" (.str "N/A") with
      | .error err => .error err
      | .ok url =>
        match pyGet source "status" (.str "unknown") with
        | .error err => .error err
        | .ok statusJ =>
          match pyGet source "chunks_count" (.num 0) with
          | .error err => .error err
          | .ok chunks =>
            match pyGet source "indexed_at" (.str "") with
            | .error err => .error err
            | .ok indexedAt =>
              match pyGet source "is_public" (.bool false) with
              | .error err => .error err
              | .ok isPub =>
                match pyDateStr indexedAt 16 10 with
                | .error err => .error err
                | .ok dateStr =>
                  match pyUpper statusJ with
                  | .error err => .error err
                  | .ok statusUp =>
                    .ok ([toString i ++ ". " ++ pyStr name,
                          "   ID: " ++ pyStr sid,
                          "   URL: " ++ pyStr url,
                          "   Status: " ++ statusUp,
                          "   Public: " ++ (if isPub.truthy then "Yes"
                            else "No (Your private source)")]
                      ++ (if chunks.truthy then ["   Chunks: " ++ pyStr chunks] else [])
                      ++ (if dateStr ≠ "" then ["   Indexed: " ++ dateStr] else [])
                      ++ [""])

/-- The source loop of `list_documentation_sources`. -/
def sourcesEntries (i : Nat) : List Json → Except PyExn (List String)
  | [] => .ok []
  | s :: ss =>
    match sourceEntry i s with
    | .error err => .error err
    | .ok e =>
      match sourcesEntries (i + 1) ss with
      | .error err => .error err
      | .ok rest => .ok (e ++ rest)

/-- `list_documentation_sources`'s handling of the HTTP response. -/
def list_documentation_sources_process (include_public include_private : Bool)
    (status : Int) (contentType : String) (jsonBody : Except String Json)
    (text : String) : Except PyExn String :=
  if status ≠ 200 then
    apiStatusMessage status contentType jsonBody text
  else
    match responseJson jsonBody with
    | .error err => .error err
    | .ok data =>
      match pyInError data with
      | .error err => .error err
      | .ok hasErr =>
        if hasErr then
          match pyGet data "error" (.str "Unknown error") with
          | .error err => .error err
          | .ok e => .ok ("Error: " ++ pyStr e)
        else
          match pyGet data "sources" (.arr []) with
          | .error err => .error err
          | .ok sourcesJ =>
            match pyGet data "count" (.num 0) with
            | .error err => .error err
            | .ok count =>
              if !sourcesJ.truthy then
                let filterInfo := (if !include_public then ["excluding public"] else [])
                  ++ (if !include_private then ["excluding private"] else [])
                let filterStr := if filterInfo.isEmpty then ""
                  else " (" ++ pyJoin ", " filterInfo ++ ")"
                .ok ("No documentation sources found" ++ filterStr ++ ".")
              else
                match pyAsList sourcesJ with
                | .error err => .error err
                | .ok sources =>
                  match sourcesEntries 1 sources with
                  | .error err => .error err
                  | .ok entries =>
                    .ok (pyJoin "\n"
                      ([eq80, "AVAILABLE DOCUMENTATION SOURCES", eq80,
                        "Total sources: " ++ pyStr count,
                        "Filters: Public=" ++ (if include_public then "Yes" else "No")
                          ++ ", Private=" ++ (if include_private then "Yes" else "No"), ""]
                      ++ entries
                      ++ [eq80,
                          "\nTip: Use source_id to search within a specific documentation source",
                          "   Example: search_documentation('query', source_id='uuid-here')"]))

/-- The tool `list_documentation_sources(include_public=True,
include_private=True)`. -/
def list_documentation_sources (api_key : String) (include_public include_private : Bool)
    (out : HttpOutcome) : String × Option Request :=
  if api_key = "" then (configuration_error_msg, none)
  else
    runRequest "Error: Request timed out. Please try again." true
      ⟨STRAYL_API_URL ++ "/list-documentation-sources",
       some (.obj [("include_public", .bool include_public),
                   ("include_private", .bool include_private)])⟩
      out (list_documentation_sources_process include_public include_private)

/-- The stage-timing lines of `index_documentation`
(`f"  - {stage}: {duration / 1000:.2f}s"`). -/
def stageLines : List (String × Json) → Except PyExn (List String)
  | [] => .ok []
  | (k, v) :: rest =>
    match pyDiv1000Fmt2 v with
    | .error err => .error err
    | .ok d =>
      match stageLines rest with
      | .error err => .error err
      | .ok more => .ok (("  - " ++ k ++ ": " ++ d ++ "s") :: more)

/-- The optional performance block of `index_documentation`'s success
report. -/
def indexPerfLines (perf : Json) : Except PyExn (List String) :=
  if perf.truthy then
    match pyGet perf "total_duration_ms" (.num 0) with
    | .error err => .error err
    | .ok td =>
      match pyGet perf "stages" (.obj []) with
      | .error err => .error err
      | .ok stagesJ =>
        match pyDiv1000Fmt2 td with
        | .error err => .error err
        | .ok tdStr =>
          if stagesJ.truthy then
            match pyAsObj stagesJ with
            | .error err => .error err
            | .ok fs =>
              match stageLines fs with
              | .error err => .error err
              | .ok ls =>
                .ok (("\nTotal duration: " ++ tdStr ++ "s") :: "\nStage timings:" :: ls)
          else
            .ok [("\nTotal duration: " ++ tdStr ++ "s")]
  else .ok []

/-- `index_documentation`'s handling of the HTTP response: an `error` key is
a domain error; on truthy `success` a report of the crawl is rendered (with
optional performance block); a non-truthy `success` is the "Indexing failed"
error. -/
def index_documentation_process (url : String) (is_public : Bool) (status : Int)
    (contentType : String) (jsonBody : Except String Json) (text : String) :
    Except PyExn String :=
  if status ≠ 200 then
    apiStatusMessage status contentType jsonBody text
  else
    match responseJson jsonBody with
    | .error err => .error err
    | .ok data =>
      match pyInError data with
      | .error err => .error err
      | .ok hasErr =>
        if hasErr then
          match pyGet data "error" (.str "Unknown error") with
          | .error err => .error err
          | .ok e => .ok ("Error: " ++ pyStr e)
        else
          match pyGet data "success" .null with
          | .error err => .error err
          | .ok success =>
            if success.truthy then
              match pyGet data "source_id" (.str "") with
              | .error err => .error err
              | .ok sid =>
                match pyGet data "pages_crawled" (.num 0) with
                | .error err => .error err
                | .ok pc =>
                  match pyGet data "chunks_indexed" (.num 0) with
                  | .error err => .error err
                  | .ok ci =>
                    match pyGet data "total_tokens" (.num 0) with
                    | .error err => .error err
                    | .ok tt =>
                      match pyGet data "performance" (.obj []) with
                      | .error err => .error err
                      | .ok perf =>
                        match pyFormatComma tt with
                        | .error err => .error err
                        | .ok ttStr =>
                          match indexPerfLines perf with
                          | .error err => .error err
                          | .ok perfLines =>
                            .ok (pyJoin "\n"
                              ([eq80, "DOCUMENTATION ADDED & INDEXED", eq80,
                                "URL: " ++ url,
                                "Source ID: " ++ pyStr sid,
                                "Public: " ++ (if is_public then "Yes" else "No (Private)"),
                                "Pages crawled: " ++ pyStr pc,
                                "Chunks indexed: " ++ pyStr ci,
                                "Total tokens: " ++ ttStr]
                              ++ perfLines
                              ++ ["\n" ++ eq80, "The documentation is now searchable!",
                                  "   Use: search_documentation('your query here')",
                                  "   Or: search_documentation('your query', source_id='"
                                    ++ pyStr sid ++ "')"]))
            else
              match pyGet data "error" (.str "Unknown error") with
              | .error err => .error err
              | .ok e => .ok ("Error: Indexing failed. " ++ pyStr e)

/-- The tool `index_documentation(url, is_public=True, force=False)`: POST to
`/index-documentation` with a 300-second budget. -/
def index_documentation (api_key url : String) (is_public force : Bool)
    (out : HttpOutcome) : String × Option Request :=
  if api_key = "" then (configuration_error_msg, none)
  else
    runRequest
      "Error: Request timed out. Indexing can take several minutes. Please check the status later."
      true
      ⟨STRAYL_API_URL ++ "/index-documentation",
       some (.obj [("url", .str url), ("is_public", .bool is_public),
                   ("force", .bool force)])⟩
      out (index_documentation_process url is_public)

/-- One formatted chat of `manage_documentation_chats` action `list`. -/
def chatEntry (i : Nat) (chat : Json) : Except PyExn (List String) :=
  match pyGet chat "id" (.str "Unknown") with
  | .error err => .error err
  | .ok cid =>
    match pyGet chat "title" (.str "Untitled") with
    | .error err => .error err
    | .ok tv =>
      match pyGet chat "updated_at" (.str "") with
      | .error err => .error err
      | .ok updated =>
        match pyGet chat "documentation_sources" .null with
        | .error err => .error err
        | .ok source =>
          match pyDateStr updated 16 16 with
          | .error err => .error err
          | .ok dateStr =>
            match (if source.truthy then
                match pyGet source "name" (.str "N/A") with
                | .error err => .error err
                | .ok n => .ok ["   Source: " ++ pyStr n]
              else .ok ([] : List String) : Except PyExn (List String)) with
            | .error err => .error err
            | .ok sourceLines =>
              .ok ([toString i ++ ". " ++ pyStr tv, "   ID: " ++ pyStr cid]
                ++ sourceLines
                ++ (if dateStr ≠ "" then ["   Updated: " ++ dateStr] else [])
                ++ [""])

/-- The chat loop of action `list`. -/
def chatsEntries (i : Nat) : List Json → Except PyExn (List String)
  | [] => .ok []
  | c :: cs =>
    match chatEntry i c with
    | .error err => .error err
    | .ok e =>
      match chatsEntries (i + 1) cs with
      | .error err => .error err
      | .ok rest => .ok (e ++ rest)

/-- One formatted message of action `get`. -/
def messageEntry (msg : Json) : Except PyExn (List String) :=
  match pyGet msg "role" (.str "unknown") with
  | .error err => .error err
  | .ok role =>
    match pyGet msg "content" (.str "") with
    | .error err => .error err
    | .ok content =>
      match pyGet msg "created_at" (.str "") with
      | .error err => .error err
      | .ok created =>
        match pyDateStr created 19 19 with
        | .error err => .error err
        | .ok dateStr =>
          let isUser := match role with
            | .str s => s == "user"
            | _ => false
          let emoji := if isUser then "👤" else "🤖"
          match pyUpper role with
          | .error err => .error err
          | .ok roleUp =>
            .ok ([emoji ++ " " ++ roleUp ++ " [" ++ dateStr ++ "]", pyStr content, dash80])

/-- The message loop of action `get`. -/
def messagesEntries : List Json → Except PyExn (List String)
  | [] => .ok []
  | m :: ms =>
    match messageEntry m with
    | .error err => .error err
    | .ok e =>
      match messagesEntries ms with
      | .error err => .error err
      | .ok rest => .ok (e ++ rest)

/-- `manage_documentation_chats`'s handling of the HTTP response, dispatched
on the action string; an action outside `list|create|get|delete` falls
through to `"Unknown action: …"` — note this happens only after a successful
backend response. -/
def manage_documentation_chats_process (action : String) (chat_id : Option String)
    (status : Int) (contentType : String) (jsonBody : Except String Json)
    (text : String) : Except PyExn String :=
  if status ≠ 200 then
    apiStatusMessage status contentType jsonBody text
  else
    match responseJson jsonBody with
    | .error err => .error err
    | .ok data =>
      match pyInError data with
      | .error err => .error err
      | .ok hasErr =>
        if hasErr then
          match pyGet data "error" (.str "Unknown error") with
          | .error err => .error err
          | .ok e => .ok ("Error: " ++ pyStr e)
        else if action = "list" then
          match pyGet data "chats" (.arr []) with
          | .error err => .error err
          | .ok chatsJ =>
            match pyGet data "count" (.num 0) with
            | .error err => .error err
            | .ok count =>
              if !chatsJ.truthy then
                .ok "No chats found. Create a new chat with action='create'."
              else
                match pyAsList chatsJ with
                | .error err => .error err
                | .ok chats =>
                  match chatsEntries 1 chats with
                  | .error err => .error err
                  | .ok entries =>
                    .ok (pyJoin "\n"
                      ([eq80, "YOUR DOCUMENTATION CHATS", eq80,
                        "Total chats: " ++ pyStr count, ""]
                      ++ entries
                      ++ [eq80,
                          "\nTip: Use chat_id with search_documentation to continue conversation",
                          "   Example: search_documentation('query', chat_id='uuid-here')"]))
        else if action = "create" then
          match pyGet data "chat" (.obj []) with
          | .error err => .error err
          | .ok chat =>
            match pyGet chat "id" (.str "Unknown") with
            | .error err => .error err
            | .ok cid =>
              match pyGet chat "title" (.str "Untitled") with
              | .error err => .error err
              | .ok tv =>
                .ok ("✅ Chat created successfully!\n\nTitle: " ++ pyStr tv
                  ++ "\nChat ID: " ++ pyStr cid
                  ++ "\n\nUse this chat_id with search_documentation to save conversation history:\n  search_documentation('your query', chat_id='"
                  ++ pyStr cid ++ "')\n")
        else if action = "get" then
          match pyGet data "chat" (.obj []) with
          | .error err => .error err
          | .ok chat =>
            match pyGet data "messages" (.arr []) with
            | .error err => .error err
            | .ok messagesJ =>
              match pyGet data "count" (.num 0) with
              | .error err => .error err
              | .ok count =>
                match pyGet chat "title" (.str "Untitled") with
                | .error err => .error err
                | .ok tv =>
                  let header := [eq80, "CHAT: " ++ pyStr tv, eq80,
                    "Messages: " ++ pyStr count, ""]
                  if !messagesJ.truthy then
                    .ok (pyJoin "\n" (header ++ ["No messages in this chat yet."]))
                  else
                    match pyAsList messagesJ with
                    | .error err => .error err
                    | .ok messages =>
                      match messagesEntries messages with
                      | .error err => .error err
                      | .ok entries => .ok (pyJoin "\n" (header ++ entries))
        else if action = "delete" then
          .ok ("✅ Chat deleted successfully (ID: " ++ optStr chat_id ++ ")")
        else
          .ok ("Unknown action: " ++ action)

/-- The tool `manage_documentation_chats(action, title=None, chat_id=None,
source_id=None)`: credential check, then the two parameter validations
(`create` requires a truthy title, `get`/`delete` a truthy chat id) — note no
validation rejects an unrecognized action — then a POST to
`/manage-documentation-chats?action=…` (with `&chat_id=…` for `get`/`delete`
and a JSON body only for `create`). -/
def manage_documentation_chats (api_key action : String)
    (title chat_id source_id : Option String) (out : HttpOutcome) :
    String × Option Request :=
  if api_key = "" then (configuration_error_msg, none)
  else if action = "create" && !optTruthy title then
    ("Error: 'title' is required for creating a chat", none)
  else if (action = "get" || action = "delete") && !optTruthy chat_id then
    ("Error: 'chat_id' is required for action '" ++ action ++ "'", none)
  else
    let url0 := STRAYL_API_URL ++ "/manage-documentation-chats?action=" ++ action
    let url := if action = "get" || action = "delete" then
        url0 ++ "&chat_id=" ++ optStr chat_id
      else url0
    let body : Option Json :=
      if action = "create" then
        some (.obj ([("title", .str (optStr title))]
          ++ (match activeOpt source_id with
              | some s => [("source_id", .str s)]
              | none => [])))
      else none
    runRequest "Error: Request timed out. Please try again." true
      ⟨url, body⟩ out (manage_documentation_chats_process action chat_id)

/-- The tool `list_time_periods()`: a static help string, no credential and
no network. -/
def list_time_periods : String :=
  "Supported time periods for log search:\n\nMinutes:\n  - 5m, 5_minutes, 5_mins - Last 5 minutes\n  - 10m, 10_minutes - Last 10 minutes\n  - 15m, 15_minutes - Last 15 minutes\n  - 30m, 30_minutes - Last 30 minutes\n\nHours:\n  - 1h, 1_hour - Last 1 hour\n  - 2h, 2_hours - Last 2 hours\n  - 6h, 6_hours - Last 6 hours\n  - 12h, 12_hours - Last 12 hours\n  - 24h, last_24_hours - Last 24 hours\n\nDays:\n  - today - Today from 00:00 UTC\n  - yesterday - Full yesterday (00:00 to 23:59)\n  - 7d, last_7_days - Last 7 days\n  - 30d, last_30_days - Last 30 days\n\nExamples:\n  - search_logs_semantic(\"error connecting to database\", \"1h\")\n  - search_logs_exact(\"timeout\", \"today\", level=\"error\")\n"

/-! General lemmas: string length positivity and the shared response
machinery.  These feed the totality claim (C1) and the rendering claims. -/

/-- A string of positive length is not the empty string. -/
theorem ne_empty_of_length_pos {s : String} (h : 0 < s.length) : s ≠ "" := by
  intro hc
  subst hc
  exact absurd h (by decide)

/-- A nonempty string has positive length. -/
theorem length_pos_of_ne_empty {s : String} (h : s ≠ "") : 0 < s.length := by
  cases s with
  | mk data =>
    cases data with
    | nil => exact absurd rfl h
    | cons c cs => simp [String.length]

/-- Appending preserves positive length (left operand). -/
theorem length_pos_append_left (a b : String) (h : 0 < a.length) :
    0 < (a ++ b).length := by
  rw [String.length_append]; omega

/-- Appending preserves positive length (right operand). -/
theorem length_pos_append_right (a b : String) (h : 0 < b.length) :
    0 < (a ++ b).length := by
  rw [String.length_append]; omega

/-- `pyJoin` on a list with a nonempty head is nonempty. -/
theorem pyJoin_cons_length_pos (sep x : String) (l : List String) (h : 0 < x.length) :
    0 < (pyJoin sep (x :: l)).length := by
  cases l with
  | nil => simpa [pyJoin]
  | cons b bs =>
    rw [pyJoin]
    exact length_pos_append_left _ _ (length_pos_append_left _ _ h)

/-- Splitting `pyJoin` at the final element. -/
theorem pyJoin_append_singleton (sep x : String) (l : List String) (h : l ≠ []) :
    pyJoin sep (l ++ [x]) = pyJoin sep l ++ sep ++ x := by
  induction l with
  | nil => exact absurd rfl h
  | cons a as ih =>
    cases as with
    | nil => rfl
    | cons b bs =>
      have step : pyJoin sep ((a :: b :: bs) ++ [x])
          = a ++ sep ++ pyJoin sep ((b :: bs) ++ [x]) := rfl
      rw [step, ih (by simp), pyJoin]
      simp [String.append_assoc]

/-- Every exception handled by `handleExn` yields a nonempty message, as long
as the tool-specific timeout message is nonempty. -/
theorem handleExn_length_pos (tm : String) (wtb : Bool) (e : PyExn)
    (htm : 0 < tm.length) : 0 < (handleExn tm wtb e).length := by
  cases e with
  | valueError m =>
    show 0 < ("Configuration error: " ++ m).length
    exact length_pos_append_left _ _ (by decide)
  | timeout => exact htm
  | other m tb =>
    simp only [handleExn]
    split
    · (repeat' apply length_pos_append_left); decide
    · (repeat' apply length_pos_append_left); decide

/-- The non-200 branch always renders a nonempty `"Error: API returned
status …"` message. -/
theorem apiStatusMessage_ok_length_pos (st : Int) (ct : String)
    (body : Except String Json) (txt s : String)
    (h : apiStatusMessage st ct body txt = .ok s) : 0 < s.length := by
  unfold apiStatusMessage at h
  repeat' split at h
  all_goals try exact Except.noConfusion h
  all_goals try simp only [Except.ok.injEq] at h
  all_goals subst h
  all_goals (repeat' apply length_pos_append_left); decide

/-- `runRequest` yields a nonempty string whenever the timeout message is
nonempty and the response processing only ever succeeds with nonempty
strings. -/
theorem runRequest_fst_length_pos (tm : String) (wtb : Bool) (req : Request)
    (out : HttpOutcome)
    (proc : Int → String → Except String Json → String → Except PyExn String)
    (htm : 0 < tm.length)
    (hproc : ∀ st ct body txt s, proc st ct body txt = .ok s → 0 < s.length) :
    0 < (runRequest tm wtb req out proc).1.length := by
  cases out with
  | timeout => exact htm
  | exnOut m tb =>
    simp only [runRequest]
    exact handleExn_length_pos tm wtb _ htm
  | resp st ct body txt =>
    simp only [runRequest]
    rcases hp : proc st ct body txt with e | s
    · simp only [hp]
      exact handleExn_length_pos tm wtb _ htm
    · simp only [hp]
      exact hproc st ct body txt _ hp

/-- `search_logs_semantic`'s response handling only succeeds with nonempty
output. -/
theorem search_logs_semantic_process_length_pos (q : String) (tp : Option String)
    (mt : Rat) (st : Int) (ct : String) (body : Except String Json) (txt s : String)
    (h : search_logs_semantic_process q tp mt st ct body txt = .ok s) : 0 < s.length := by
  unfold search_logs_semantic_process at h
  split at h
  · exact apiStatusMessage_ok_length_pos _ _ _ _ _ h
  · repeat' split at h
    all_goals try exact Except.noConfusion h
    all_goals try simp only [Except.ok.injEq] at h
    all_goals subst h
    all_goals (repeat' apply length_pos_append_left); decide

/-- `search_logs_exact`'s response handling only succeeds with nonempty
output. -/
theorem search_logs_exact_process_length_pos (q : String) (tp lvl : Option String)
    (cs : Bool) (st : Int) (ct : String) (body : Except String Json) (txt s : String)
    (h : search_logs_exact_process q tp lvl cs st ct body txt = .ok s) : 0 < s.length := by
  unfold search_logs_exact_process at h
  split at h
  · exact apiStatusMessage_ok_length_pos _ _ _ _ _ h
  · repeat' split at h
    all_goals try exact Except.noConfusion h
    all_goals try simp only [Except.ok.injEq] at h
    all_goals subst h
    all_goals (repeat' apply length_pos_append_left); decide

/-- `search_documentation`'s response handling only succeeds with nonempty
output (the structured-answer branch is guarded by its own non-blankness
check). -/
theorem search_documentation_process_length_pos (q : String) (si : Option String)
    (st : Int) (ct : String) (body : Except String Json) (txt s : String)
    (h : search_documentation_process q si st ct body txt = .ok s) : 0 < s.length := by
  unfold search_documentation_process at h
  split at h
  · exact apiStatusMessage_ok_length_pos _ _ _ _ _ h
  · repeat' split at h
    all_goals try exact Except.noConfusion h
    all_goals try simp only [Except.ok.injEq] at h
    all_goals subst h
    all_goals try ((repeat' apply length_pos_append_left); decide)
    all_goals try (apply pyJoin_cons_length_pos; (repeat' apply length_pos_append_left); decide)
    all_goals rename_i hcond
    all_goals rw [Bool.and_eq_true, decide_eq_true_eq] at hcond
    all_goals exact length_pos_of_ne_empty hcond.2

/-- `list_documentation_sources`'s response handling only succeeds with
nonempty output. -/
theorem list_documentation_sources_process_length_pos (ip ipr : Bool)
    (st : Int) (ct : String) (body : Except String Json) (txt s : String)
    (h : list_documentation_sources_process ip ipr st ct body txt = .ok s) :
    0 < s.length := by
  unfold list_documentation_sources_process at h
  split at h
  · exact apiStatusMessage_ok_length_pos _ _ _ _ _ h
  · repeat' split at h
    all_goals try exact Except.noConfusion h
    all_goals try simp only [Except.ok.injEq] at h
    all_goals subst h
    all_goals (repeat' apply length_pos_append_left); decide

/-- `index_documentation`'s response handling only succeeds with nonempty
output. -/
theorem index_documentation_process_length_pos (url : String) (ip : Bool)
    (st : Int) (ct : String) (body : Except String Json) (txt s : String)
    (h : index_documentation_process url ip st ct body txt = .ok s) : 0 < s.length := by
  unfold index_documentation_process at h
  split at h
  · exact apiStatusMessage_ok_length_pos _ _ _ _ _ h
  · repeat' split at h
    all_goals try exact Except.noConfusion h
    all_goals try simp only [Except.ok.injEq] at h
    all_goals subst h
    all_goals (repeat' apply length_pos_append_left); decide

/-- `manage_documentation_chats`'s response handling only succeeds with
nonempty output. -/
theorem manage_documentation_chats_process_length_pos (a : String)
    (ci : Option String) (st : Int) (ct : String) (body : Except String Json)
    (txt s : String)
    (h : manage_documentation_chats_process a ci st ct body txt = .ok s) :
    0 < s.length := by
  unfold manage_documentation_chats_process at h
  split at h
  · exact apiStatusMessage_ok_length_pos _ _ _ _ _ h
  · repeat' split at h
    all_goals try exact Except.noConfusion h
    all_goals try simp only [Except.ok.injEq] at h
    all_goals subst h
    all_goals (repeat' apply length_pos_append_left); decide

/-- `search_logs_semantic_run` always returns nonempty text. -/
theorem search_logs_semantic_run_length_pos (q : String) (tp : Option String)
    (mt : Rat) (mc : Int) (times : Option (Int × Int)) (out : HttpOutcome) :
    0 < (search_logs_semantic_run q tp mt mc times out).1.length :=
  runRequest_fst_length_pos _ _ _ _ _ (by decide)
    (fun st ct b txt s h => search_logs_semantic_process_length_pos q tp mt st ct b txt s h)

/-- `search_logs_exact_run` always returns nonempty text. -/
theorem search_logs_exact_run_length_pos (q : String) (tp lvl : Option String)
    (cs : Bool) (lim : Int) (times : Option (Int × Int)) (out : HttpOutcome) :
    0 < (search_logs_exact_run q tp lvl cs lim times out).1.length :=
  runRequest_fst_length_pos _ _ _ _ _ (by decide)
    (fun st ct b txt s h => search_logs_exact_process_length_pos q tp lvl cs st ct b txt s h)

/-- `search_documentation`'s request step always returns nonempty text. -/
theorem search_documentation_runRequest_length_pos (q : String) (si : Option String)
    (req : Request) (out : HttpOutcome) :
    0 < (runRequest
      "Error: Request timed out (Gemini processing can take up to 60s). Please try again."
      true req out (search_documentation_process q si)).1.length :=
  runRequest_fst_length_pos _ _ _ _ _ (by decide)
    (fun st ct b txt s h => search_documentation_process_length_pos q si st ct b txt s h)

/-- `list_documentation_sources`'s request step always returns nonempty text. -/
theorem list_documentation_sources_runRequest_length_pos (ip ipr : Bool)
    (req : Request) (out : HttpOutcome) :
    0 < (runRequest "Error: Request timed out. Please try again." true req out
      (list_documentation_sources_process ip ipr)).1.length :=
  runRequest_fst_length_pos _ _ _ _ _ (by decide)
    (fun st ct b txt s h => list_documentation_sources_process_length_pos ip ipr st ct b txt s h)

/-- `index_documentation`'s request step always returns nonempty text. -/
theorem index_documentation_runRequest_length_pos (url : String) (ip : Bool)
    (req : Request) (out : HttpOutcome) :
    0 < (runRequest
      "Error: Request timed out. Indexing can take several minutes. Please check the status later."
      true req out (index_documentation_process url ip)).1.length :=
  runRequest_fst_length_pos _ _ _ _ _ (by decide)
    (fun st ct b txt s h => index_documentation_process_length_pos url ip st ct b txt s h)

/-- `manage_documentation_chats`'s request step always returns nonempty text. -/
theorem manage_documentation_chats_runRequest_length_pos (a : String)
    (ci : Option String) (req : Request) (out : HttpOutcome) :
    0 < (runRequest "Error: Request timed out. Please try again." true req out
      (manage_documentation_chats_process a ci)).1.length :=
  runRequest_fst_length_pos _ _ _ _ _ (by decide)
    (fun st ct b txt s h => manage_documentation_chats_process_length_pos a ci st ct b txt s h)

/-- C1.  Every tool entry point (`search_logs_semantic`, `search_logs_exact`,
`search_documentation`, `list_documentation_sources`, `index_documentation`,
`manage_documentation_chats`, `list_time_periods`) returns a (nonempty)
string to the caller for every input, every credential value and every
backend/transport outcome — the exception constructors of `HttpOutcome` and
every internally raised `PyExn` included — so no exception ever propagates
past the tool boundary. -/
theorem claim_C1_tools_always_return_text :
    (∀ k q tp mt mc now out, (search_logs_semantic k q tp mt mc now out).1 ≠ "")
    ∧ (∀ k q tp lv cs lim now out, (search_logs_exact k q tp lv cs lim now out).1 ≠ "")
    ∧ (∀ k q ci si ua out, (search_documentation k q ci si ua out).1 ≠ "")
    ∧ (∀ k ip ipr out, (list_documentation_sources k ip ipr out).1 ≠ "")
    ∧ (∀ k u ip f out, (index_documentation k u ip f out).1 ≠ "")
    ∧ (∀ k a t ci si out, (manage_documentation_chats k a t ci si out).1 ≠ "")
    ∧ list_time_periods ≠ "" := by
  refine ⟨?_, ?_, ?_, ?_, ?_, ?_, by decide⟩
  · intro k q tp mt mc now out
    apply ne_empty_of_length_pos
    unfold search_logs_semantic
    repeat' split
    all_goals
      first
        | exact search_logs_semantic_run_length_pos _ _ _ _ _ _
        | ((repeat' apply length_pos_append_left); decide)
  · intro k q tp lv cs lim now out
    apply ne_empty_of_length_pos
    unfold search_logs_exact search_logs_exact_checkLevel
    repeat' split
    all_goals
      first
        | exact search_logs_exact_run_length_pos _ _ _ _ _ _ _
        | ((repeat' apply length_pos_append_left); decide)
  · intro k q ci si ua out
    apply ne_empty_of_length_pos
    unfold search_documentation
    split
    · decide
    · exact search_documentation_runRequest_length_pos _ _ _ _
  · intro k ip ipr out
    apply ne_empty_of_length_pos
    unfold list_documentation_sources
    split
    · decide
    · exact list_documentation_sources_runRequest_length_pos _ _ _ _
  · intro k u ip f out
    apply ne_empty_of_length_pos
    unfold index_documentation
    split
    · decide
    · exact index_documentation_runRequest_length_pos _ _ _ _
  · intro k a t ci si out
    apply ne_empty_of_length_pos
    unfold manage_documentation_chats
    repeat' split
    all_goals
      first
        | exact manage_documentation_chats_runRequest_length_pos _ _ _ _
        | ((repeat' apply length_pos_append_left); decide)

/-- Whatever the outcome, once `runRequest` is reached the request has been
issued and is recorded. -/
theorem runRequest_snd (tm : String) (wtb : Bool) (req : Request) (out : HttpOutcome)
    (proc : Int → String → Except String Json → String → Except PyExn String) :
    (runRequest tm wtb req out proc).2 = some req := by
  cases out with
  | timeout => rfl
  | exnOut m tb => rfl
  | resp st ct body txt =>
    simp only [runRequest]
    rcases hp : proc st ct body txt with e | s <;> simp [hp]

/-- The combined time-period step of the log-search tools: `some times` when
no truthy token was supplied (`times = none`) or the token resolved
(`times = some interval`); `none` when resolution failed and the tool
short-circuits. -/
def resolvedTimes (now : Int) (tp : Option String) : Option (Option (Int × Int)) :=
  match activeOpt tp with
  | none => some none
  | some t =>
    match parse_time_period now t with
    | none => none
    | some r => some (some r)

/-- The level step of `search_logs_exact`: `some lvl` when no truthy level
was supplied (`lvl = none`) or the level is in the allowed set
(`lvl = some original`); `none` when the tool short-circuits. -/
def levelResolved (level : Option String) : Option (Option String) :=
  match activeOpt level with
  | none => some none
  | some l =>
    if ["info", "warn", "error", "debug"].contains (pyLower l) then some (some l)
    else none

/-- With a valid credential and a resolved time period,
`search_logs_semantic` reaches its request step. -/
theorem search_logs_semantic_eq_run (k q : String) (tp : Option String) (mt : Rat)
    (mc : Int) (now : Int) (out : HttpOutcome) (times : Option (Int × Int))
    (hk : k ≠ "") (h : resolvedTimes now tp = some times) :
    search_logs_semantic k q tp mt mc now out
      = search_logs_semantic_run q (activeOpt tp) mt mc times out := by
  unfold search_logs_semantic
  rw [if_neg hk]
  cases hA : activeOpt tp with
  | none =>
    simp only [resolvedTimes, hA, Option.some.injEq] at h
    subst h
    rfl
  | some t =>
    cases hp : parse_time_period now t with
    | none => simp [resolvedTimes, hA, hp] at h
    | some r =>
      simp only [resolvedTimes, hA, hp, Option.some.injEq] at h
      subst h
      simp [hp]

/-- With a valid credential and a resolved time period, `search_logs_exact`
reaches its level-validation step. -/
theorem search_logs_exact_eq_checkLevel (k q : String) (tp lv : Option String)
    (cs : Bool) (lim now : Int) (out : HttpOutcome) (times : Option (Int × Int))
    (hk : k ≠ "") (h : resolvedTimes now tp = some times) :
    search_logs_exact k q tp lv cs lim now out
      = search_logs_exact_checkLevel q (activeOpt tp) lv cs lim times out := by
  unfold search_logs_exact
  rw [if_neg hk]
  cases hA : activeOpt tp with
  | none =>
    simp only [resolvedTimes, hA, Option.some.injEq] at h
    subst h
    rfl
  | some t =>
    cases hp : parse_time_period now t with
    | none => simp [resolvedTimes, hA, hp] at h
    | some r =>
      simp only [resolvedTimes, hA, hp, Option.some.injEq] at h
      subst h
      simp [hp]

/-- With a resolved level, the level-validation step reaches the request
step. -/
theorem search_logs_exact_checkLevel_eq_run (q : String) (tp lv : Option String)
    (cs : Bool) (lim : Int) (times : Option (Int × Int)) (out : HttpOutcome)
    (lvl : Option String) (h : levelResolved lv = some lvl) :
    search_logs_exact_checkLevel q tp lv cs lim times out
      = search_logs_exact_run q tp lvl cs lim times out := by
  unfold search_logs_exact_checkLevel
  cases hA : activeOpt lv with
  | none =>
    simp only [levelResolved, hA, Option.some.injEq] at h
    subst h
    rfl
  | some l =>
    simp only [levelResolved, hA] at h
    split at h
    · simp only [Option.some.injEq] at h
      subst h
      simp_all
    · exact Option.noConfusion h

/-- C5.  If the `STRAYL_API_KEY` environment variable is absent or empty
(modelled as the empty string, exactly what `os.getenv("STRAYL_API_KEY", "")`
yields), every credentialed tool returns the configuration-error message and
performs no network call (`.2 = none`); the message is prefixed
`Configuration error:` and does not carry the `Error` prefix of
backend/transport errors. -/
theorem claim_C5_missing_key_is_config_error_no_request :
    (∀ q tp mt mc now out,
      search_logs_semantic "" q tp mt mc now out = (configuration_error_msg, none))
    ∧ (∀ q tp lv cs lim now out,
      search_logs_exact "" q tp lv cs lim now out = (configuration_error_msg, none))
    ∧ (∀ q ci si ua out,
      search_documentation "" q ci si ua out = (configuration_error_msg, none))
    ∧ (∀ ip ipr out,
      list_documentation_sources "" ip ipr out = (configuration_error_msg, none))
    ∧ (∀ u ip f out,
      index_documentation "" u ip f out = (configuration_error_msg, none))
    ∧ (∀ a t ci si out,
      manage_documentation_chats "" a t ci si out = (configuration_error_msg, none))
    ∧ configuration_error_msg.data.take 20 = "Configuration error:".data
    ∧ configuration_error_msg.data.take 5 ≠ "Error".data :=
  ⟨fun _ _ _ _ _ _ => rfl, fun _ _ _ _ _ _ _ => rfl, fun _ _ _ _ _ => rfl,
   fun _ _ _ => rfl, fun _ _ _ _ => rfl, fun _ _ _ _ _ => rfl,
   by decide, by decide⟩

/-- Lookup inside a JSON object payload (`none` on non-objects). -/
def payloadLookup : Json → String → Option Json
  | .obj fs, k => lookupField fs k
  | _, _ => none

/-- C10.  Whenever `search_documentation` issues its backend request — for
every credential, every caller input and every outcome — the recorded request
body is exactly the payload built by `search_documentation_payload`, and that
payload always carries the hardcoded `limit = 15` and
`similarity_threshold = 0.22`; no caller input reaches these fields. -/
theorem claim_C10_doc_search_fixed_limit_threshold :
    ∀ (k q : String) (ci si : Option String) (ua : Bool) (out : HttpOutcome)
      (r : Request),
      (search_documentation k q ci si ua out).2 = some r →
      r.body = some (search_documentation_payload q ci si ua)
      ∧ payloadLookup (search_documentation_payload q ci si ua) "limit"
          = some (.num 15)
      ∧ payloadLookup (search_documentation_payload q ci si ua) "similarity_threshold"
          = some (.num (22 / 100)) := by
  intro k q ci si ua out r h
  unfold search_documentation at h
  split at h
  · exact absurd h (by simp)
  · rw [runRequest_snd] at h
    simp only [Option.some.injEq] at h
    subst h
    exact ⟨rfl, rfl, rfl⟩

/-- C10 witness: a concrete invocation (with caller-supplied chat and source
ids and `use_ai = False`) issues a request whose payload carries `limit = 15`
and `similarity_threshold = 0.22`. -/
theorem claim_C10_witness :
    (search_documentation "k" "q" (some "c") (some "s") false .timeout).2
      = some ⟨STRAYL_API_URL ++ "/search-documentation",
              some (search_documentation_payload "q" (some "c") (some "s") false)⟩
    ∧ payloadLookup (search_documentation_payload "q" (some "c") (some "s") false) "limit"
        = some (.num 15)
    ∧ payloadLookup (search_documentation_payload "q" (some "c") (some "s") false)
        "similarity_threshold" = some (.num (22 / 100)) := by
  refine ⟨rfl, ?_, ?_⟩
  · exact (claim_C10_doc_search_fixed_limit_threshold "k" "q" (some "c") (some "s")
      false .timeout _ rfl).2.1
  · exact (claim_C10_doc_search_fixed_limit_threshold "k" "q" (some "c") (some "s")
      false .timeout _ rfl).2.2

/-- A numeric-suffix token only resolves to a positive count. -/
theorem numToken_pos {t suf : String} {n : Nat} (h : numToken t suf = some n) :
    0 < n := by
  unfold numToken at h
  repeat' split at h
  all_goals try exact Option.noConfusion h
  all_goals simp only [Option.some.injEq] at h
  all_goals subst h
  all_goals assumption

/-- A `last_{N}_days` token only resolves to a positive count. -/
theorem lastDaysToken_pos {t : String} {n : Nat} (h : lastDaysToken t = some n) :
    0 < n := by
  unfold lastDaysToken at h
  repeat' split at h
  all_goals try exact Option.noConfusion h
  all_goals simp only [Option.some.injEq] at h
  all_goals subst h
  all_goals assumption

/-- Minute tokens only resolve to positive counts. -/
theorem minutesToken_pos {t : String} {n : Nat} (h : minutesToken t = some n) :
    0 < n := by
  unfold minutesToken at h
  repeat' split at h
  all_goals try simp only [Option.some.injEq] at h
  all_goals try subst h
  all_goals
    first
      | exact numToken_pos h
      | (rename_i heq; exact numToken_pos heq)

/-- Hour tokens only resolve to positive counts. -/
theorem hoursToken_pos {t : String} {n : Nat} (h : hoursToken t = some n) :
    0 < n := by
  unfold hoursToken at h
  repeat' split at h
  all_goals try simp only [Option.some.injEq] at h
  all_goals try subst h
  all_goals
    first
      | exact numToken_pos h
      | (rename_i heq; exact numToken_pos heq)

/-- Day tokens only resolve to positive counts. -/
theorem daysToken_pos {t : String} {n : Nat} (h : daysToken t = some n) :
    0 < n := by
  unfold daysToken at h
  repeat' split at h
  all_goals try simp only [Option.some.injEq] at h
  all_goals try subst h
  all_goals
    first
      | exact numToken_pos h
      | exact lastDaysToken_pos h
      | (rename_i heq; exact numToken_pos heq)
      | (rename_i heq; exact lastDaysToken_pos heq)

/-- C8 counterexample.  The claim asserts `start` strictly before `end` for
every non-failure resolution, but `today` resolved exactly at a UTC midnight
(e.g. instant 86400 = 1970-01-02T00:00:00Z) yields the degenerate interval
`[midnight, now)` with `start = end`. -/
theorem claim_C8_counterexample :
    parse_time_period 86400 "today" = some (86400, 86400)
    ∧ ¬((86400 : Int) < 86400) :=
  ⟨rfl, by decide⟩

/-- C8 (amended).  The spec-modelled resolver is total (it returns `none`,
the explicit failure outcome, rather than raising, on every unrecognized
token — totality is the type of `parse_time_period`), and every non-failure
result `(start, end)` satisfies `start ≤ end`, with equality only in the
single degenerate case: the token normalizes to `today` and `now` is exactly
a UTC midnight.  Both endpoints are UTC instants by construction of the
model. -/
theorem claim_C8_resolver_interval :
    ∀ (now : Int) (token : String) (s e : Int),
      parse_time_period now token = some (s, e) →
      s ≤ e ∧ (s = e → normToken token = "today" ∧ now % 86400 = 0) := by
  intro now token s e h
  unfold parse_time_period at h
  revert h
  generalize normToken token = t
  intro h
  unfold resolveNormToken at h
  split at h
  next htoday =>
    simp only [Option.some.injEq, Prod.mk.injEq] at h
    obtain ⟨hs, he⟩ := h
    subst hs
    subst he
    exact ⟨by omega, fun hse => ⟨htoday, by omega⟩⟩
  next hnottoday =>
    split at h
    next hyest =>
      simp only [Option.some.injEq, Prod.mk.injEq] at h
      obtain ⟨hs, he⟩ := h
      subst hs
      subst he
      constructor
      · omega
      · intro hse
        exact absurd hse (by omega)
    next hnotyest =>
      split at h
      next n hmin =>
        have hn := minutesToken_pos hmin
        simp only [Option.some.injEq, Prod.mk.injEq] at h
        obtain ⟨hs, he⟩ := h
        subst hs
        subst he
        constructor
        · omega
        · intro hse
          exact absurd hse (by omega)
      next hnomin =>
        split at h
        next n hhour =>
          have hn := hoursToken_pos hhour
          simp only [Option.some.injEq, Prod.mk.injEq] at h
          obtain ⟨hs, he⟩ := h
          subst hs
          subst he
          constructor
          · omega
          · intro hse
            exact absurd hse (by omega)
        next hnohour =>
          split at h
          next n hday =>
            have hn := daysToken_pos hday
            simp only [Option.some.injEq, Prod.mk.injEq] at h
            obtain ⟨hs, he⟩ := h
            subst hs
            subst he
            constructor
            · omega
            · intro hse
              exact absurd hse (by omega)
          next => exact Option.noConfusion h

/-- C8 witness: `"1h"` resolved at instant 7200 yields the interval
`(3600, 7200)`, which the amended claim certifies as `start ≤ end` (and not
the degenerate case). -/
theorem claim_C8_witness :
    (3600 : Int) ≤ 7200
    ∧ ((3600 : Int) = 7200 → normToken "1h" = "today" ∧ (7200 : Int) % 86400 = 0) :=
  claim_C8_resolver_interval 7200 "1h" 3600 7200 rfl

/-- C3 counterexample.  The claim quantifies over every supplied token on
which the resolver fails; the empty string is such a token (spec 8 lists `""`
among the always-failing tokens, and the resolver confirms), yet a tool
called with `time_period = ""` performs the network call — Python's
`if time_period:` treats the empty string as absent — instead of returning
the token-naming error. -/
theorem claim_C3_counterexample :
    parse_time_period 0 "" = none
    ∧ (search_logs_exact "k" "q" (some "") none false 50 0 .timeout).2.isSome = true
    ∧ (search_logs_semantic "k" "q" (some "") (1 / 5) 50 0 .timeout).2.isSome = true :=
  ⟨rfl, rfl, rfl⟩

/-- C3 (amended).  With a valid credential, whenever a *non-empty*
time-period token is supplied and the resolver yields the failure outcome,
both log-search tools return a descriptive error naming the offending token
and perform no network call (`.2 = none`); an empty-string token is treated
as "no filter supplied" and does not short-circuit. -/
theorem claim_C3_resolver_failure_short_circuits :
    ∀ (k q t : String) (mt : Rat) (mc : Int) (lv : Option String) (cs : Bool)
      (lim now : Int) (out : HttpOutcome),
      k ≠ "" → t ≠ "" → parse_time_period now t = none →
      search_logs_semantic k q (some t) mt mc now out
        = ("Error: Invalid time period '" ++ t
            ++ "'. Supported values: 5m, 1h, today, yesterday, 7d, etc.", none)
      ∧ search_logs_exact k q (some t) lv cs lim now out
        = ("Error: Invalid time period '" ++ t ++ "'", none) := by
  intro k q t mt mc lv cs lim now out hk ht hp
  have hA : activeOpt (some t) = some t := by
    simp [activeOpt, optTruthy, ht]
  constructor
  · unfold search_logs_semantic
    rw [if_neg hk]
    simp only [hA, hp]
  · unfold search_logs_exact
    rw [if_neg hk]
    simp only [hA, hp]

/-- C3 witness: with a set credential and the unrecognized token `"banana"`,
both tools return the descriptive error and record no request. -/
theorem claim_C3_witness :
    search_logs_semantic "k" "q" (some "banana") (1 / 5) 50 0 .timeout
      = ("Error: Invalid time period 'banana'. Supported values: 5m, 1h, today, yesterday, 7d, etc.",
         none)
    ∧ search_logs_exact "k" "q" (some "banana") none false 50 0 .timeout
      = ("Error: Invalid time period 'banana'", none) := by
  have h := claim_C3_resolver_failure_short_circuits "k" "q" "banana" (1 / 5) 50 none
    false 50 0 .timeout (by decide) (by decide) rfl
  exact h

/-- C4 counterexample.  The claim says an action outside
`{list, create, get, delete}` yields a validation error with no HTTP request;
in fact an unrecognized action passes both validations, the POST is issued
(`.2.isSome`), and only after a successful backend response does the tool
report `"Unknown action: …"`. -/
theorem claim_C4_counterexample :
    (manage_documentation_chats "k" "frobnicate" none none none .timeout).2.isSome = true
    ∧ (manage_documentation_chats "k" "frobnicate" none none none
        (.resp 200 "application/json" (.ok (.obj [])) "")).1
      = "Unknown action: frobnicate" :=
  ⟨rfl, rfl⟩

/-- C4 (amended).  Tool-specific input validation happens before any network
call for: a (non-empty) level outside `{info, warn, error, debug}` in
`search_logs_exact` (given the credential is set and the time period, if any,
resolved), a `create` without a truthy title, and a `get`/`delete` without a
truthy chat id — each returns the corresponding validation error with
`.2 = none`.  An unrecognized action, however, is not validated locally: it
is forwarded to the backend (see the counterexample). -/
theorem claim_C4_local_validation_no_request :
    (∀ (k q l : String) (tp : Option String) (cs : Bool) (lim now : Int)
        (out : HttpOutcome) (times : Option (Int × Int)),
      k ≠ "" → resolvedTimes now tp = some times → l ≠ "" →
      (["info", "warn", "error", "debug"].contains (pyLower l) = false) →
      search_logs_exact k q tp (some l) cs lim now out
        = ("Error: Invalid log level '" ++ l ++ "'. Must be one of: info, warn, error, debug",
           none))
    ∧ (∀ (k : String) (title ci si : Option String) (out : HttpOutcome),
      k ≠ "" → optTruthy title = false →
      manage_documentation_chats k "create" title ci si out
        = ("Error: 'title' is required for creating a chat", none))
    ∧ (∀ (k a : String) (title ci si : Option String) (out : HttpOutcome),
      k ≠ "" → (a = "get" ∨ a = "delete") → optTruthy ci = false →
      manage_documentation_chats k a title ci si out
        = ("Error: 'chat_id' is required for action '" ++ a ++ "'", none)) := by
  refine ⟨?_, ?_, ?_⟩
  · intro k q l tp cs lim now out times hk htimes hl hbad
    rw [search_logs_exact_eq_checkLevel k q tp (some l) cs lim now out times hk htimes]
    unfold search_logs_exact_checkLevel
    have hA : activeOpt (some l) = some l := by
      simp [activeOpt, optTruthy, hl]
    simp only [hA, hbad]
    simp
  · intro k title ci si out hk htitle
    unfold manage_documentation_chats
    rw [if_neg hk]
    simp [htitle]
  · intro k a title ci si out hk ha hci
    unfold manage_documentation_chats
    rw [if_neg hk]
    have hnc : (a = "create" && !optTruthy title) = false := by
      rcases ha with h | h <;> subst h <;> simp
    rw [if_neg (by simp [hnc])]
    have hgd : ((a = "get" || a = "delete") && !optTruthy ci) = true := by
      rcases ha with h | h <;> subst h <;> simp [hci]
    rw [if_pos (by simp_all)]

/-- C4 witness: a level `"FATAL"` is rejected before any request, and a
`create` without title / a `delete` without chat id short-circuit likewise. -/
theorem claim_C4_witness :
    search_logs_exact "k" "q" none (some "FATAL") false 50 0 .timeout
      = ("Error: Invalid log level 'FATAL'. Must be one of: info, warn, error, debug", none)
    ∧ manage_documentation_chats "k" "create" none none none .timeout
      = ("Error: 'title' is required for creating a chat", none)
    ∧ manage_documentation_chats "k" "delete" none none none .timeout
      = ("Error: 'chat_id' is required for action 'delete'", none) :=
  ⟨claim_C4_local_validation_no_request.1 "k" "q" "FATAL" none false 50 0 .timeout
      none (by decide) rfl (by decide) (by decide),
   claim_C4_local_validation_no_request.2.1 "k" none none none .timeout (by decide) rfl,
   claim_C4_local_validation_no_request.2.2 "k" "delete" none none none .timeout
      (by decide) (Or.inr rfl) rfl⟩

/-- C2 counterexample.  A 200-status JSON body carrying the explicit failure
indicator `success: false` (but no `error` key) is rendered by
`search_documentation` as the empty-result message, not as a domain error:
the tool only checks for an `error` key. -/
theorem claim_C2_counterexample :
    (search_documentation "k" "q" none none true
      (.resp 200 "application/json" (.ok (.obj [("success", .bool false)])) "")).1
    = "No documentation found for query 'q'" := rfl

/-- C2 (amended).  On a 200-status JSON-object body, each tool surfaces the
failure indicator it actually checks as a domain error `"Error: …"` carrying
the body's error text (`"Unknown error"` when the `error` key is absent), and
in particular never as an empty-result message: the log-search tools check a
falsy `success`, the documentation/source/chat tools an `error` key, and
`index_documentation` checks the `error` key first and then a falsy `success`
(reported as `"Error: Indexing failed. …"`).  The cross cases — `success:
false` without `error` key at a documentation tool, or an `error` key with
truthy `success` at a log tool — fall through (see the counterexample). -/
theorem claim_C2_domain_error_on_200 :
    (∀ (k q : String) (tp : Option String) (mt : Rat) (mc now : Int)
        (times : Option (Int × Int)) (ct txt : String) (fs : List (String × Json)),
      k ≠ "" → resolvedTimes now tp = some times →
      ((lookupField fs "success").getD .null).truthy = false →
      (search_logs_semantic k q tp mt mc now (.resp 200 ct (.ok (.obj fs)) txt)).1
        = "Error: " ++ pyStr ((lookupField fs "error").getD (.str "Unknown error")))
    ∧ (∀ (k q : String) (tp lv : Option String) (cs : Bool) (lim now : Int)
        (times : Option (Int × Int)) (lvl : Option String) (ct txt : String)
        (fs : List (String × Json)),
      k ≠ "" → resolvedTimes now tp = some times → levelResolved lv = some lvl →
      ((lookupField fs "success").getD .null).truthy = false →
      (search_logs_exact k q tp lv cs lim now (.resp 200 ct (.ok (.obj fs)) txt)).1
        = "Error: " ++ pyStr ((lookupField fs "error").getD (.str "Unknown error")))
    ∧ (∀ (k q : String) (ci si : Option String) (ua : Bool) (ct txt : String)
        (fs : List (String × Json)),
      k ≠ "" → hasField fs "error" = true →
      (search_documentation k q ci si ua (.resp 200 ct (.ok (.obj fs)) txt)).1
        = "Error: " ++ pyStr ((lookupField fs "error").getD (.str "Unknown error")))
    ∧ (∀ (k : String) (ip ipr : Bool) (ct txt : String) (fs : List (String × Json)),
      k ≠ "" → hasField fs "error" = true →
      (list_documentation_sources k ip ipr (.resp 200 ct (.ok (.obj fs)) txt)).1
        = "Error: " ++ pyStr ((lookupField fs "error").getD (.str "Unknown error")))
    ∧ (∀ (k u : String) (ip f : Bool) (ct txt : String) (fs : List (String × Json)),
      k ≠ "" → hasField fs "error" = true →
      (index_documentation k u ip f (.resp 200 ct (.ok (.obj fs)) txt)).1
        = "Error: " ++ pyStr ((lookupField fs "error").getD (.str "Unknown error")))
    ∧ (∀ (k u : String) (ip f : Bool) (ct txt : String) (fs : List (String × Json)),
      k ≠ "" → hasField fs "error" = false →
      ((lookupField fs "success").getD .null).truthy = false →
      (index_documentation k u ip f (.resp 200 ct (.ok (.obj fs)) txt)).1
        = "Error: Indexing failed. "
            ++ pyStr ((lookupField fs "error").getD (.str "Unknown error")))
    ∧ (∀ (k a : String) (title ci si : Option String) (ct txt : String)
        (fs : List (String × Json)),
      k ≠ "" → (a = "create" → optTruthy title = true) →
      ((a = "get" ∨ a = "delete") → optTruthy ci = true) →
      hasField fs "error" = true →
      (manage_documentation_chats k a title ci si (.resp 200 ct (.ok (.obj fs)) txt)).1
        = "Error: " ++ pyStr ((lookupField fs "error").getD (.str "Unknown error"))) := by
  refine ⟨?_, ?_, ?_, ?_, ?_, ?_, ?_⟩
  · intro k q tp mt mc now times ct txt fs hk htimes hsucc
    rw [search_logs_semantic_eq_run k q tp mt mc now _ times hk htimes]
    unfold search_logs_semantic_run runRequest search_logs_semantic_process
    simp [responseJson, pyGet, hsucc]
  · intro k q tp lv cs lim now times lvl ct txt fs hk htimes hlvl hsucc
    rw [search_logs_exact_eq_checkLevel k q tp lv cs lim now _ times hk htimes]
    rw [search_logs_exact_checkLevel_eq_run q (activeOpt tp) lv cs lim times _ lvl hlvl]
    unfold search_logs_exact_run runRequest search_logs_exact_process
    simp [responseJson, pyGet, hsucc]
  · intro k q ci si ua ct txt fs hk herr
    unfold search_documentation runRequest search_documentation_process
    rw [if_neg hk]
    simp [responseJson, pyInError, pyGet, herr]
  · intro k ip ipr ct txt fs hk herr
    unfold list_documentation_sources runRequest list_documentation_sources_process
    rw [if_neg hk]
    simp [responseJson, pyInError, pyGet, herr]
  · intro k u ip f ct txt fs hk herr
    unfold index_documentation runRequest index_documentation_process
    rw [if_neg hk]
    simp [responseJson, pyInError, pyGet, herr]
  · intro k u ip f ct txt fs hk herr hsucc
    unfold index_documentation runRequest index_documentation_process
    rw [if_neg hk]
    simp [responseJson, pyInError, pyGet, herr, hsucc]
  · intro k a title ci si ct txt fs hk htitle hci herr
    unfold manage_documentation_chats runRequest manage_documentation_chats_process
    rw [if_neg hk]
    have h1 : (a = "create" && !optTruthy title) = false := by
      by_cases hc : a = "create"
      · simp [hc, htitle hc]
      · simp [hc]
    have h2 : ((a = "get" || a = "delete") && !optTruthy ci) = false := by
      by_cases hg : a = "get"
      · simp [hg, hci (Or.inl hg)]
      · by_cases hd : a = "delete"
        · simp [hg, hd, hci (Or.inr hd)]
        · simp [hg, hd]
    rw [if_neg (by simp [h1]), if_neg (by simp [h2])]
    simp [responseJson, pyInError, pyGet, herr]

/-- C2 witness: the spec's own example — HTTP 200 with body
`{"success": false, "error": "bad query"}` — renders as a domain error
containing "bad query" at `search_logs_semantic`. -/
theorem claim_C2_witness :
    (search_logs_semantic "k" "q" none (1 / 5) 50 0
      (.resp 200 "application/json"
        (.ok (.obj [("success", .bool false), ("error", .str "bad query")])) "")).1
    = "Error: bad query" := by
  have h := claim_C2_domain_error_on_200.1 "k" "q" none (1 / 5) 50 0 none
    "application/json" "" [("success", .bool false), ("error", .str "bad query")]
    (by decide) rfl rfl
  exact h.trans rfl

/-- C7 counterexample.  A successful backend response whose result set is
empty but which carries a structured answer is rendered by
`search_documentation` as the bare answer, not as the "no results" message
the claim requires for every empty result set. -/
theorem claim_C7_counterexample :
    (search_documentation "k" "q" none none true
      (.resp 200 "application/json"
        (.ok (.obj [("results", .arr []), ("structured_answer", .str "Use X.")])) "")).1
    = "Use X." := rfl

/-- C7 (amended).  A successful (200, no failure indicator) backend response
with an empty result set is rendered as an explicit "no results" message
naming the query and the active filters as supplied — except that
`search_documentation` does so only when the structured answer is also falsy
(otherwise the answer is shown; see the counterexample) — and the chat `list`
action's no-results message carries no filters because none exist.  None of
these messages is an error message (each equals a fixed text starting "No"). -/
theorem claim_C7_empty_results_message :
    (∀ (k q : String) (tp : Option String) (mt : Rat) (mc now : Int)
        (times : Option (Int × Int)) (ct txt : String) (fs : List (String × Json)),
      k ≠ "" → resolvedTimes now tp = some times →
      ((lookupField fs "success").getD .null).truthy = true →
      (((lookupField fs "results").getD (.arr [])).truthy) = false →
      (search_logs_semantic k q tp mt mc now (.resp 200 ct (.ok (.obj fs)) txt)).1
        = "No logs found for query '" ++ q ++ "'"
            ++ (match activeOpt tp with
                | some t => " in period '" ++ t ++ "'"
                | none => ""))
    ∧ (∀ (k q : String) (tp lv : Option String) (cs : Bool) (lim now : Int)
        (times : Option (Int × Int)) (lvl : Option String) (ct txt : String)
        (fs : List (String × Json)),
      k ≠ "" → resolvedTimes now tp = some times → levelResolved lv = some lvl →
      ((lookupField fs "success").getD .null).truthy = true →
      (((lookupField fs "results").getD (.arr [])).truthy) = false →
      (search_logs_exact k q tp lv cs lim now (.resp 200 ct (.ok (.obj fs)) txt)).1
        = "No logs found for exact text '" ++ q ++ "'"
            ++ (let filters := (match activeOpt tp with
                  | some t => ["period '" ++ t ++ "'"]
                  | none => [])
                ++ (match lvl with
                    | some l => ["level '" ++ l ++ "'"]
                    | none => [])
                if filters.isEmpty then "" else " with filters: " ++ pyJoin ", " filters))
    ∧ (∀ (k q : String) (ci si : Option String) (ua : Bool) (ct txt : String)
        (fs : List (String × Json)),
      k ≠ "" → hasField fs "error" = false →
      (((lookupField fs "results").getD (.arr [])).truthy) = false →
      (((lookupField fs "structured_answer").getD .null).truthy) = false →
      (search_documentation k q ci si ua (.resp 200 ct (.ok (.obj fs)) txt)).1
        = "No documentation found for query '" ++ q ++ "'"
            ++ (match activeOpt si with
                | some s => " in source '" ++ s ++ "'"
                | none => ""))
    ∧ (∀ (k : String) (ip ipr : Bool) (ct txt : String) (fs : List (String × Json)),
      k ≠ "" → hasField fs "error" = false →
      (((lookupField fs "sources").getD (.arr [])).truthy) = false →
      (list_documentation_sources k ip ipr (.resp 200 ct (.ok (.obj fs)) txt)).1
        = "No documentation sources found"
            ++ (let filterInfo := (if !ip then ["excluding public"] else [])
                  ++ (if !ipr then ["excluding private"] else [])
                if filterInfo.isEmpty then ""
                else " (" ++ pyJoin ", " filterInfo ++ ")") ++ ".")
    ∧ (∀ (k : String) (title ci si : Option String) (ct txt : String)
        (fs : List (String × Json)),
      k ≠ "" → hasField fs "error" = false →
      (((lookupField fs "chats").getD (.arr [])).truthy) = false →
      (manage_documentation_chats k "list" title ci si (.resp 200 ct (.ok (.obj fs)) txt)).1
        = "No chats found. Create a new chat with action='create'.") := by
  refine ⟨?_, ?_, ?_, ?_, ?_⟩
  · intro k q tp mt mc now times ct txt fs hk htimes hsucc hres
    rw [search_logs_semantic_eq_run k q tp mt mc now _ times hk htimes]
    unfold search_logs_semantic_run runRequest search_logs_semantic_process
    simp [responseJson, pyGet, hsucc, hres]
  · intro k q tp lv cs lim now times lvl ct txt fs hk htimes hlvl hsucc hres
    rw [search_logs_exact_eq_checkLevel k q tp lv cs lim now _ times hk htimes]
    rw [search_logs_exact_checkLevel_eq_run q (activeOpt tp) lv cs lim times _ lvl hlvl]
    unfold search_logs_exact_run runRequest search_logs_exact_process
    simp [responseJson, pyGet, hsucc, hres]
  · intro k q ci si ua ct txt fs hk herr hres hsa
    unfold search_documentation runRequest search_documentation_process
    rw [if_neg hk]
    simp [responseJson, pyInError, pyGet, herr, hres, hsa]
  · intro k ip ipr ct txt fs hk herr hsrc
    unfold list_documentation_sources runRequest list_documentation_sources_process
    rw [if_neg hk]
    simp [responseJson, pyInError, pyGet, herr, hsrc]
  · intro k title ci si ct txt fs hk herr hchats
    unfold manage_documentation_chats runRequest manage_documentation_chats_process
    rw [if_neg hk]
    rw [if_neg (by simp : ¬(("list" = "create" && !optTruthy title) = true))]
    rw [if_neg (by simp : ¬((("list" = "get" || "list" = "delete") && !optTruthy ci) = true))]
    simp [responseJson, pyInError, pyGet, herr, hchats]

/-- C7 witness: an empty result set from `search_logs_exact` with period
`"1h"` and level `"error"` renders the filter-annotated no-results message. -/
theorem claim_C7_witness :
    (search_logs_exact "k" "q" (some "1h") (some "error") false 50 7200
      (.resp 200 "application/json"
        (.ok (.obj [("success", .bool true), ("results", .arr [])])) "")).1
    = "No logs found for exact text 'q' with filters: period '1h', level 'error'" := by
  have h := claim_C7_empty_results_message.2.1 "k" "q" (some "1h") (some "error") false
    50 7200 (some (3600, 7200)) (some "error") "application/json" ""
    [("success", .bool true), ("results", .arr [])]
    (by decide) rfl rfl rfl rfl
  exact h.trans rfl

/-- The first two joined elements of a rendering are a prefix of the
output. -/
theorem pyJoin_cons_cons (sep a b : String) (l : List String) :
    ∃ rest, pyJoin sep (a :: b :: l) = a ++ sep ++ b ++ rest := by
  cases l with
  | nil => exact ⟨"", by simp [pyJoin, String.append_assoc]⟩
  | cons c cs => exact ⟨sep ++ pyJoin sep (c :: cs), by simp [pyJoin, String.append_assoc]⟩

/-- The lines of a successful non-empty `search_logs_semantic` rendering:
header block (query, total, optional period, threshold, embeddings count,
separator), the capped numbered entries, and the truncation notice when the
reported total exceeds 10. -/
def semanticSuccessLines (q : String) (tp : Option String) (mt : Rat)
    (ms : List (String × Json)) (t : Rat) (xs : List Json) : List String :=
  (["Semantic Search Results for: '" ++ q ++ "'", "Total results: " ++ pyStr (.num t)]
    ++ (match tp with
        | some t' => ["Time period: " ++ t']
        | none => [])
    ++ ["Similarity threshold: " ++ ratToDecimalStr mt,
        "Logs with embeddings: " ++ pyStr ((lookupField ms "logs_with_embeddings").getD (.num 0)),
        "\n" ++ eq80 ++ "\n"])
  ++ logEntriesFrom 1 (xs.take 10)
  ++ (if 10 < t then ["\n... and " ++ ratToDecimalStr (t - 10) ++ " more results"] else [])

/-- The lines of a successful non-empty `search_logs_exact` rendering. -/
def exactSuccessLines (q : String) (tp lvl : Option String) (cs : Bool)
    (t : Rat) (xs : List Json) : List String :=
  (["Exact Search Results for: '" ++ q ++ "'", "Total results: " ++ pyStr (.num t)]
    ++ (match tp with
        | some t' => ["Time period: " ++ t']
        | none => [])
    ++ (match lvl with
        | some l => ["Log level: " ++ l]
        | none => [])
    ++ ["Case sensitive: " ++ (if cs then "True" else "False"),
        "\n" ++ eq80 ++ "\n"])
  ++ logEntriesFrom 1 (xs.take 10)
  ++ (if 10 < t then ["\n... and " ++ ratToDecimalStr (t - 10) ++ " more results"] else [])

/-- A successful non-empty semantic search renders exactly
`semanticSuccessLines` joined by newlines. -/
theorem search_logs_semantic_success_output (k q : String) (tp : Option String)
    (mt : Rat) (mc now : Int) (times : Option (Int × Int)) (ct txt : String)
    (fs : List (String × Json)) (xs : List Json) (ms : List (String × Json)) (t : Rat)
    (hk : k ≠ "") (htimes : resolvedTimes now tp = some times)
    (hsucc : ((lookupField fs "success").getD .null).truthy = true)
    (hres : (lookupField fs "results").getD (.arr []) = .arr xs)
    (hxs : xs ≠ [])
    (hmeta : (lookupField fs "search_metadata").getD (.obj []) = .obj ms)
    (htot : (lookupField fs "total_results").getD (.num 0) = .num t) :
    (search_logs_semantic k q tp mt mc now (.resp 200 ct (.ok (.obj fs)) txt)).1
      = pyJoin "\n" (semanticSuccessLines q (activeOpt tp) mt ms t xs) := by
  rw [search_logs_semantic_eq_run k q tp mt mc now _ times hk htimes]
  unfold search_logs_semantic_run runRequest search_logs_semantic_process
    semanticSuccessLines
  simp only [responseJson, pyGet, hsucc, hres, hmeta, htot, pyAsList, pyAsRat]
  have hxs' : (Json.arr xs).truthy = true := by
    simp [Json.truthy, hxs, List.isEmpty_iff]
  simp [hxs', hsucc]

/-- A successful non-empty exact search renders exactly `exactSuccessLines`
joined by newlines. -/
theorem search_logs_exact_success_output (k q : String) (tp lv : Option String)
    (cs : Bool) (lim now : Int) (times : Option (Int × Int)) (lvl : Option String)
    (ct txt : String) (fs : List (String × Json)) (xs : List Json) (t : Rat)
    (hk : k ≠ "") (htimes : resolvedTimes now tp = some times)
    (hlvl : levelResolved lv = some lvl)
    (hsucc : ((lookupField fs "success").getD .null).truthy = true)
    (hres : (lookupField fs "results").getD (.arr []) = .arr xs)
    (hxs : xs ≠ [])
    (htot : (lookupField fs "total_results").getD (.num 0) = .num t) :
    (search_logs_exact k q tp lv cs lim now (.resp 200 ct (.ok (.obj fs)) txt)).1
      = pyJoin "\n" (exactSuccessLines q (activeOpt tp) lvl cs t xs) := by
  rw [search_logs_exact_eq_checkLevel k q tp lv cs lim now _ times hk htimes]
  rw [search_logs_exact_checkLevel_eq_run q (activeOpt tp) lv cs lim times _ lvl hlvl]
  unfold search_logs_exact_run runRequest search_logs_exact_process exactSuccessLines
  simp only [responseJson, pyGet, hsucc, hres, htot, pyAsList, pyAsRat]
  have hxs' : (Json.arr xs).truthy = true := by
    simp [Json.truthy, hxs, List.isEmpty_iff]
  simp [hxs', hsucc]

/-- C6.  On a successful non-empty response, both log-search tools render at
most 10 formatted log entries — the output is the join of the header lines,
`logEntriesFrom 1 (results.take 10)` (two lines per entry, at most 10
entries) and the optional notice — and whenever the reported total `t`
exceeds 10 the output ends with the `"... and {t - 10} more results"`
notice. -/
theorem claim_C6_ten_entry_cap_and_notice :
    (∀ (k q : String) (tp : Option String) (mt : Rat) (mc now : Int)
        (times : Option (Int × Int)) (ct txt : String) (fs : List (String × Json))
        (xs : List Json) (ms : List (String × Json)) (t : Rat),
      k ≠ "" → resolvedTimes now tp = some times →
      ((lookupField fs "success").getD .null).truthy = true →
      (lookupField fs "results").getD (.arr []) = .arr xs → xs ≠ [] →
      (lookupField fs "search_metadata").getD (.obj []) = .obj ms →
      (lookupField fs "total_results").getD (.num 0) = .num t →
      (search_logs_semantic k q tp mt mc now (.resp 200 ct (.ok (.obj fs)) txt)).1
          = pyJoin "\n" (semanticSuccessLines q (activeOpt tp) mt ms t xs)
        ∧ (xs.take 10).length ≤ 10
        ∧ (10 < t → ∃ p,
            (search_logs_semantic k q tp mt mc now (.resp 200 ct (.ok (.obj fs)) txt)).1
              = p ++ ("\n... and " ++ ratToDecimalStr (t - 10) ++ " more results")))
    ∧ (∀ (k q : String) (tp lv : Option String) (cs : Bool) (lim now : Int)
        (times : Option (Int × Int)) (lvl : Option String) (ct txt : String)
        (fs : List (String × Json)) (xs : List Json) (t : Rat),
      k ≠ "" → resolvedTimes now tp = some times → levelResolved lv = some lvl →
      ((lookupField fs "success").getD .null).truthy = true →
      (lookupField fs "results").getD (.arr []) = .arr xs → xs ≠ [] →
      (lookupField fs "total_results").getD (.num 0) = .num t →
      (search_logs_exact k q tp lv cs lim now (.resp 200 ct (.ok (.obj fs)) txt)).1
          = pyJoin "\n" (exactSuccessLines q (activeOpt tp) lvl cs t xs)
        ∧ (xs.take 10).length ≤ 10
        ∧ (10 < t → ∃ p,
            (search_logs_exact k q tp lv cs lim now (.resp 200 ct (.ok (.obj fs)) txt)).1
              = p ++ ("\n... and " ++ ratToDecimalStr (t - 10) ++ " more results"))) := by
  constructor
  · intro k q tp mt mc now times ct txt fs xs ms t hk htimes hsucc hres hxs hmeta htot
    have h := search_logs_semantic_success_output k q tp mt mc now times ct txt fs xs
      ms t hk htimes hsucc hres hxs hmeta htot
    refine ⟨h, ?_, ?_⟩
    · rw [List.length_take]
      exact min_le_left _ _
    · intro h10
      rw [h]
      unfold semanticSuccessLines
      rw [if_pos h10]
      rw [pyJoin_append_singleton "\n" _ _ (by simp)]
      exact ⟨_, rfl⟩
  · intro k q tp lv cs lim now times lvl ct txt fs xs t hk htimes hlvl hsucc hres hxs htot
    have h := search_logs_exact_success_output k q tp lv cs lim now times lvl ct txt fs
      xs t hk htimes hlvl hsucc hres hxs htot
    refine ⟨h, ?_, ?_⟩
    · rw [List.length_take]
      exact min_le_left _ _
    · intro h10
      rw [h]
      unfold exactSuccessLines
      rw [if_pos h10]
      rw [pyJoin_append_singleton "\n" _ _ (by simp)]
      exact ⟨_, rfl⟩

/-- C6 witness: the spec's example — 11 results with reported total 11 from
`search_logs_exact` — renders exactly 10 numbered entries and ends with the
`"... and 1 more results"` notice. -/
theorem claim_C6_witness :
    ((List.replicate 11 (Json.obj [])).take 10).length = 10
    ∧ (∃ p,
        (search_logs_exact "k" "q" none none false 50 0
          (.resp 200 "application/json"
            (.ok (.obj [("success", .bool true),
                        ("results", .arr (List.replicate 11 (Json.obj []))),
                        ("total_results", .num 11)])) "")).1
          = p ++ ("\n... and 1 more results")) := by
  have h := (claim_C6_ten_entry_cap_and_notice.2 "k" "q" none none false 50 0
    none none "application/json" ""
    [("success", .bool true), ("results", .arr (List.replicate 11 (Json.obj []))),
     ("total_results", .num 11)]
    (List.replicate 11 (Json.obj [])) 11
    (by decide) rfl rfl rfl rfl (by simp) rfl).2.2 (by norm_num)
  refine ⟨by decide, ?_⟩
  obtain ⟨p, hp⟩ := h
  refine ⟨p, ?_⟩
  rw [hp]
  have h1 : ratToDecimalStr ((11 : Rat) - 10) = "1" := by
    have h2 : (11 : Rat) - 10 = 1 := by norm_num
    rw [h2]
    exact rfl
  rw [h1]
  exact rfl

/-- C9 counterexample.  A successful non-empty `search_documentation`
response carrying a structured answer is rendered as the bare stripped
answer with no header block at all: for query `"deploy"` the output is
`"Use X."`, which does not even contain the query. -/
theorem claim_C9_counterexample :
    (search_documentation "k" "deploy" none none true
      (.resp 200 "application/json"
        (.ok (.obj [("results", .arr [Json.obj []]),
                    ("structured_answer", .str "Use X.")])) "")).1
      = "Use X."
    ∧ strContains "Use X." "deploy" = false :=
  ⟨rfl, rfl⟩

/-- C9 (amended).  The header-block property holds for the two log-search
tools: every successful non-empty rendering begins with the query line
followed by the total-count line (the remaining filter/count lines and the
formatted records follow, per `semanticSuccessLines` / `exactSuccessLines`).
For `search_documentation`, a successful response with a non-blank
structured answer is rendered as the stripped answer text alone, with no
header (see the counterexample). -/
theorem claim_C9_output_headers :
    (∀ (k q : String) (tp : Option String) (mt : Rat) (mc now : Int)
        (times : Option (Int × Int)) (ct txt : String) (fs : List (String × Json))
        (xs : List Json) (ms : List (String × Json)) (t : Rat),
      k ≠ "" → resolvedTimes now tp = some times →
      ((lookupField fs "success").getD .null).truthy = true →
      (lookupField fs "results").getD (.arr []) = .arr xs → xs ≠ [] →
      (lookupField fs "search_metadata").getD (.obj []) = .obj ms →
      (lookupField fs "total_results").getD (.num 0) = .num t →
      ∃ rest,
        (search_logs_semantic k q tp mt mc now (.resp 200 ct (.ok (.obj fs)) txt)).1
          = ("Semantic Search Results for: '" ++ q ++ "'") ++ "\n"
              ++ ("Total results: " ++ pyStr (.num t)) ++ rest)
    ∧ (∀ (k q : String) (tp lv : Option String) (cs : Bool) (lim now : Int)
        (times : Option (Int × Int)) (lvl : Option String) (ct txt : String)
        (fs : List (String × Json)) (xs : List Json) (t : Rat),
      k ≠ "" → resolvedTimes now tp = some times → levelResolved lv = some lvl →
      ((lookupField fs "success").getD .null).truthy = true →
      (lookupField fs "results").getD (.arr []) = .arr xs → xs ≠ [] →
      (lookupField fs "total_results").getD (.num 0) = .num t →
      ∃ rest,
        (search_logs_exact k q tp lv cs lim now (.resp 200 ct (.ok (.obj fs)) txt)).1
          = ("Exact Search Results for: '" ++ q ++ "'") ++ "\n"
              ++ ("Total results: " ++ pyStr (.num t)) ++ rest)
    ∧ (∀ (k q : String) (ci si : Option String) (ua : Bool) (ct txt : String)
        (fs : List (String × Json)),
      k ≠ "" → hasField fs "error" = false →
      (((lookupField fs "structured_answer").getD .null).truthy) = true →
      pyStrip (pyStr ((lookupField fs "structured_answer").getD .null)) ≠ "" →
      (search_documentation k q ci si ua (.resp 200 ct (.ok (.obj fs)) txt)).1
        = pyStrip (pyStr ((lookupField fs "structured_answer").getD .null))) := by
  refine ⟨?_, ?_, ?_⟩
  · intro k q tp mt mc now times ct txt fs xs ms t hk htimes hsucc hres hxs hmeta htot
    rw [search_logs_semantic_success_output k q tp mt mc now times ct txt fs xs ms t
      hk htimes hsucc hres hxs hmeta htot]
    unfold semanticSuccessLines
    simp only [List.cons_append, List.nil_append, List.append_assoc]
    exact pyJoin_cons_cons "\n" _ _ _
  · intro k q tp lv cs lim now times lvl ct txt fs xs t hk htimes hlvl hsucc hres hxs htot
    rw [search_logs_exact_success_output k q tp lv cs lim now times lvl ct txt fs xs t
      hk htimes hlvl hsucc hres hxs htot]
    unfold exactSuccessLines
    simp only [List.cons_append, List.nil_append, List.append_assoc]
    exact pyJoin_cons_cons "\n" _ _ _
  · intro k q ci si ua ct txt fs hk herr hsa hstrip
    unfold search_documentation runRequest search_documentation_process
    rw [if_neg hk]
    simp [responseJson, pyInError, pyGet, herr, hsa, hstrip]

/-- C9 witness: a successful one-result semantic search begins with the
query header line and the total-count line. -/
theorem claim_C9_witness :
    ∃ rest,
      (search_logs_semantic "k" "q" none (1 / 5) 50 0
        (.resp 200 "application/json"
          (.ok (.obj [("success", .bool true), ("results", .arr [Json.obj []]),
                      ("total_results", .num 1)])) "")).1
        = ("Semantic Search Results for: '" ++ "q" ++ "'") ++ "\n"
            ++ ("Total results: " ++ pyStr (.num 1)) ++ rest :=
  claim_C9_output_headers.1 "k" "q" none (1 / 5) 50 0 none "application/json" ""
    [("success", .bool true), ("results", .arr [Json.obj []]), ("total_results", .num 1)]
    [Json.obj []] [] 1 (by decide) rfl rfl rfl (by simp) rfl rfl
